import Mathlib

/-!
Verification of the GPU resource/state cache and binding-resolution engine
of the `glfwquad` repository (directory `src/graphice/`).

The Rust code is shallowly embedded: every stateful operation becomes a pure
Lean function from the explicit state to the new state together with the list
of driver calls it emits (the `gl*` FFI calls), and every Rust `panic!` /
failed `assert!` becomes a `Panic` value.  Machine integers that cannot
overflow on any reachable input are modelled by `Nat`/`Int`; the one wrapping
cast that the code performs (`attr_loc as GLuint`) is modelled explicitly
modulo `2^32`.

The driver itself (module `gl`, absent from the sources) is opaque: a driver
call is recorded in a trace instead of being executed, and `glGetAttribLocation`
is an oracle function passed in as a parameter.
-/

/-- OpenGL enum values used by the embedded code.  The `gl` module is not part
of the sources; these are the standard OpenGL constants its callers rely on. -/
def GL_ARRAY_BUFFER : Nat := 34962

/-- Standard OpenGL constant, see `GL_ARRAY_BUFFER`. -/
def GL_ELEMENT_ARRAY_BUFFER : Nat := 34963

/-- Standard OpenGL constant, see `GL_ARRAY_BUFFER`. -/
def GL_TEXTURE0 : Nat := 33984

/-- Standard OpenGL constant, see `GL_ARRAY_BUFFER`. -/
def GL_TEXTURE_2D : Nat := 3553

/-- Standard OpenGL constant, see `GL_ARRAY_BUFFER`. -/
def GL_SCISSOR_TEST : Nat := 3089

/-- Standard OpenGL constant, see `GL_ARRAY_BUFFER`. -/
def GL_DEPTH_TEST : Nat := 2929

/-- Standard OpenGL constant, see `GL_ARRAY_BUFFER`. -/
def GL_CULL_FACE_CAP : Nat := 2884

/-- Standard OpenGL constant, see `GL_ARRAY_BUFFER`. -/
def GL_BLEND : Nat := 3042

/-- Standard OpenGL constant, see `GL_ARRAY_BUFFER`. -/
def GL_STENCIL_TEST : Nat := 2960

/-- Standard OpenGL constant, see `GL_ARRAY_BUFFER`. -/
def GL_CW : Nat := 2304

/-- Standard OpenGL constant, see `GL_ARRAY_BUFFER`. -/
def GL_CCW : Nat := 2305

/-- Standard OpenGL constant, see `GL_ARRAY_BUFFER`. -/
def GL_FRONT : Nat := 1028

/-- Standard OpenGL constant, see `GL_ARRAY_BUFFER`. -/
def GL_BACK : Nat := 1029

/-- The distinct fatal-error (Rust `panic!`/`assert!`) sites of the embedded
code, one constructor per panic site. -/
inductive Panic where
  /-- `panic!()` on an out-of-range index / `Vec` index out of bounds. -/
  | indexOutOfBounds : Panic
  /-- `assert!(cache.stride <= 255)` in `Pipeline::with_params`. -/
  | strideTooLarge : Panic
  /-- `assert!(attr_loc < vertex_layout.len() as u32, ..)` in `Pipeline::with_params`. -/
  | attrLocOutOfRange : Panic
  /-- `panic!("AlphaBlend without ColorBlend")` in `GraphicsContext::set_blend`. -/
  | alphaBlendWithoutColorBlend : Panic
  /-- `assert!(self.cache.cur_pipeline.is_some(), "Drawing without any binded pipeline")`. -/
  | drawWithoutPipeline : Panic
  /-- `self.cache.index_type.expect("Unset index buffer type")` in `draw`. -/
  | unsetIndexBufferType : Panic
  /-- the two index-element-type `assert!`s at the top of `Buffer::update`. -/
  | indexTypeMismatch : Panic
  /-- `panic!("Unsupported index buffer index type")` in `IndexType::for_type`. -/
  | unsupportedIndexType : Panic
  /-- `assert!(size <= self.size)` in `Buffer::update`. -/
  | bufferUpdateExceedsSize : Panic
  /-- `assert!(offset <= size - .., "Uniforms struct does not match shader uniforms layout")`. -/
  | uniformsLayoutMismatch : Panic
  /-- `panic!("Image count in bindings and shader did not match!")` in `apply_bindings`. -/
  | imageCountMismatch : Panic
deriving DecidableEq, Repr

/-- `IndexType` from `buffer.rs`: the element width of an index buffer. -/
inductive IndexType where
  | byte : IndexType
  | short : IndexType
  | int : IndexType
deriving DecidableEq, Repr

/-- `IndexType::size` from `buffer.rs` (bytes per index element). -/
def IndexType.size : IndexType → Nat
  | .byte => 1
  | .short => 2
  | .int => 4

/-- Modelled from the spec: the Format/Layout table mapping an index element
type to its driver enum (the `From<IndexType> for GLenum` impl lives in the
absent `gl` module; the values are the standard `GL_UNSIGNED_*` enums). -/
def IndexType.glType : IndexType → Nat
  | .byte => 5121
  | .short => 5123
  | .int => 5125

/-- One call into the driver command surface.  The embedded operations emit
these into a trace instead of executing FFI calls. -/
inductive DriverCall where
  | glBindBuffer (target : Nat) (buffer : Nat) : DriverCall
  | glActiveTexture (unit : Nat) : DriverCall
  | glBindTexture (target : Nat) (texture : Nat) : DriverCall
  | glUseProgram (program : Nat) : DriverCall
  | glEnable (cap : Nat) : DriverCall
  | glDisable (cap : Nat) : DriverCall
  | glDepthFunc (func : Nat) : DriverCall
  | glFrontFace (mode : Nat) : DriverCall
  | glCullFace (mode : Nat) : DriverCall
  | glColorMask (r g b a : Bool) : DriverCall
  | glBlendFunc (sfactor dfactor : Nat) : DriverCall
  | glBlendFuncSeparate (srcRGB dstRGB srcAlpha dstAlpha : Nat) : DriverCall
  | glBlendEquationSeparate (modeRGB modeAlpha : Nat) : DriverCall
  | glStencilOpSeparate (face sfail dpfail dppass : Nat) : DriverCall
  | glStencilFuncSeparate (face func : Nat) (ref : Int) (mask : Nat) : DriverCall
  | glStencilMaskSeparate (face : Nat) (mask : Nat) : DriverCall
  | glBufferSubData (target : Nat) (offset : Int) (size : Nat) : DriverCall
  | glDrawElements (mode : Nat) (count : Int) (type_ : Nat) (indices : Int) : DriverCall
  | glDrawElementsInstanced (mode : Nat) (count : Int) (type_ : Nat) (indices : Int)
      (primcount : Int) : DriverCall
  | glUniform1i (location : Int) (v0 : Int) : DriverCall
  | glVertexAttribPointer (index : Nat) (size : Int) (type_ : Nat) (stride : Int)
      (pointer : Int) : DriverCall
  | glVertexAttribDivisor (index : Nat) (divisor : Int) : DriverCall
  | glEnableVertexAttribArray (index : Nat) : DriverCall
  | glDisableVertexAttribArray (index : Nat) : DriverCall
  | glUniformUpload (kind : Nat) (location : Int) (count : Int) (wordOffset : Nat) : DriverCall
deriving DecidableEq, Repr

/-- `MAX_VERTEX_ATTRIBUTES` from `mod.rs`. -/
def MAX_VERTEX_ATTRIBUTES : Nat := 16

/-- `MAX_SHADERSTAGE_IMAGES` from `mod.rs`. -/
def MAX_SHADERSTAGE_IMAGES : Nat := 12

/-- `VertexFormat` from `pipeline.rs`. -/
inductive VertexFormat where
  | float1 | float2 | float3 | float4
  | byte1 | byte2 | byte3 | byte4
  | short1 | short2 | short3 | short4
  | int1 | int2 | int3 | int4
  | mat4
deriving DecidableEq, Repr

/-- `VertexFormat::size` from `pipeline.rs` (component count). -/
def VertexFormat.size : VertexFormat → Int
  | .float1 => 1 | .float2 => 2 | .float3 => 3 | .float4 => 4
  | .byte1 => 1 | .byte2 => 2 | .byte3 => 3 | .byte4 => 4
  | .short1 => 1 | .short2 => 2 | .short3 => 3 | .short4 => 4
  | .int1 => 1 | .int2 => 2 | .int3 => 3 | .int4 => 4
  | .mat4 => 16

/-- `VertexFormat::byte_len` from `pipeline.rs` (total byte length). -/
def VertexFormat.byte_len : VertexFormat → Int
  | .float1 => 1 * 4 | .float2 => 2 * 4 | .float3 => 3 * 4 | .float4 => 4 * 4
  | .byte1 => 1 | .byte2 => 2 | .byte3 => 3 | .byte4 => 4
  | .short1 => 1 * 2 | .short2 => 2 * 2 | .short3 => 3 * 2 | .short4 => 4 * 2
  | .int1 => 1 * 4 | .int2 => 2 * 4 | .int3 => 3 * 4 | .int4 => 4 * 4
  | .mat4 => 16 * 4

/-- `VertexFormat::type_` from `pipeline.rs` (driver scalar-type enum;
`GL_FLOAT = 5126`, `GL_UNSIGNED_BYTE = 5121`, `GL_UNSIGNED_SHORT = 5123`,
`GL_UNSIGNED_INT = 5125`). -/
def VertexFormat.type_ : VertexFormat → Nat
  | .float1 => 5126 | .float2 => 5126 | .float3 => 5126 | .float4 => 5126
  | .byte1 => 5121 | .byte2 => 5121 | .byte3 => 5121 | .byte4 => 5121
  | .short1 => 5123 | .short2 => 5123 | .short3 => 5123 | .short4 => 5123
  | .int1 => 5125 | .int2 => 5125 | .int3 => 5125 | .int4 => 5125
  | .mat4 => 5126

/-- `VertexAttributeInternal` from `pipeline.rs`: one compiled attribute-slot
table entry. -/
structure VertexAttributeInternal where
  attr_loc : Nat
  size : Int
  type_ : Nat
  offset : Int
  stride : Int
  buffer_index : Nat
  divisor : Int
deriving DecidableEq, Repr

/-- `Default` of `VertexAttributeInternal` (`#[derive(Default)]`). -/
def VertexAttributeInternal.default : VertexAttributeInternal :=
  { attr_loc := 0, size := 0, type_ := 0, offset := 0, stride := 0,
    buffer_index := 0, divisor := 0 }

/-- `CachedAttribute` from `cache.rs`. -/
structure CachedAttribute where
  /-- field `attribute` in the source (`attribute` is a Lean keyword). -/
  attr : VertexAttributeInternal
  gl_vbuf : Nat
deriving DecidableEq, Repr

/-- `Comparison` from `pipeline.rs`. -/
inductive Comparison where
  | never | less | lessOrEqual | greater | greaterOrEqual | equal | notEqual | always
deriving DecidableEq, Repr

/-- Modelled from the spec: the Format/Layout table mapping a comparison
function to its driver enum (the `From<Comparison>` impl lives outside the
sources; standard `GL_NEVER .. GL_ALWAYS` values `512..519`). -/
def Comparison.gl : Comparison → Nat
  | .never => 512 | .less => 513 | .equal => 514 | .lessOrEqual => 515
  | .greater => 516 | .notEqual => 517 | .greaterOrEqual => 518 | .always => 519

/-- `CullFace` from `pipeline.rs`. -/
inductive CullFace where
  | nothing | front | back
deriving DecidableEq, Repr

/-- `FrontFaceOrder` from `pipeline.rs`. -/
inductive FrontFaceOrder where
  | clockwise | counterClockwise
deriving DecidableEq, Repr

/-- `BlendValue` from `blend.rs`. -/
inductive BlendValue where
  | sourceColor | sourceAlpha | destinationColor | destinationAlpha
deriving DecidableEq, Repr

/-- `BlendFactor` from `blend.rs`. -/
inductive BlendFactor where
  | zero : BlendFactor
  | one : BlendFactor
  | value : BlendValue → BlendFactor
  | oneMinusValue : BlendValue → BlendFactor
  | sourceAlphaSaturate : BlendFactor
deriving DecidableEq, Repr

/-- `Equation` from `blend.rs`. -/
inductive Equation where
  | add | subtract | reverseSubtract
deriving DecidableEq, Repr

/-- Modelled from the spec: Format/Layout table, blend equation to driver enum
(`GL_FUNC_ADD = 32774`, `GL_FUNC_SUBTRACT = 32778`,
`GL_FUNC_REVERSE_SUBTRACT = 32779`); the `From` impl is outside the sources. -/
def Equation.gl : Equation → Nat
  | .add => 32774 | .subtract => 32778 | .reverseSubtract => 32779

/-- Modelled from the spec: Format/Layout table, blend factor to driver enum
(standard `GL_ZERO`, `GL_ONE`, `GL_SRC_*`, `GL_DST_*`,
`GL_ONE_MINUS_*`, `GL_SRC_ALPHA_SATURATE` values); the `From` impl is outside
the sources. -/
def BlendFactor.gl : BlendFactor → Nat
  | .zero => 0
  | .one => 1
  | .value .sourceColor => 768
  | .value .sourceAlpha => 770
  | .value .destinationColor => 774
  | .value .destinationAlpha => 772
  | .oneMinusValue .sourceColor => 769
  | .oneMinusValue .sourceAlpha => 771
  | .oneMinusValue .destinationColor => 775
  | .oneMinusValue .destinationAlpha => 773
  | .sourceAlphaSaturate => 776

/-- `BlendState` from `blend.rs`. -/
structure BlendState where
  equation : Equation
  sfactor : BlendFactor
  dfactor : BlendFactor
deriving DecidableEq, Repr

/-- Modelled from the spec: one stencil operation (the `stencil` module is not
under the sources; the spec lists front/back op triples, compare func, ref and
masks).  The constructors are the standard stencil ops. -/
inductive StencilOp where
  | keep | zero | replace | incrementClamp | decrementClamp | invert
  | incrementWrap | decrementWrap
deriving DecidableEq, Repr

/-- Modelled from the spec: stencil op to driver enum (standard values). -/
def StencilOp.gl : StencilOp → Nat
  | .keep => 7680 | .zero => 0 | .replace => 7681 | .incrementClamp => 7682
  | .decrementClamp => 7683 | .invert => 5386 | .incrementWrap => 34055
  | .decrementWrap => 34056

/-- Modelled from the spec: per-face stencil state, with exactly the fields the
in-source `set_stencil` reads (`fail_op`, `depth_fail_op`, `pass_op`,
`test_func`, `test_ref`, `test_mask`, `write_mask`). -/
structure StencilFaceState where
  fail_op : StencilOp
  depth_fail_op : StencilOp
  pass_op : StencilOp
  test_func : Comparison
  test_ref : Int
  test_mask : Nat
  write_mask : Nat
deriving DecidableEq, Repr

/-- Modelled from the spec: stencil state, front and back face
(`stencil.rs` is not under the sources; `set_stencil` reads `.front`/`.back`). -/
structure StencilState where
  front : StencilFaceState
  back : StencilFaceState
deriving DecidableEq, Repr

/-- `ColorMask` from `mod.rs`. -/
abbrev ColorMask := Bool × Bool × Bool × Bool

/-- `GlCache` from `cache.rs`: the per-context driver state cache.  `GLuint`
resource ids are `Nat` (they are small driver-generated names; no arithmetic is
ever performed on them). -/
structure GlCache where
  stored_index_buffer : Nat
  stored_index_type : Option IndexType
  stored_vertex_buffer : Nat
  stored_texture : Nat
  index_buffer : Nat
  index_type : Option IndexType
  vertex_buffer : Nat
  textures : List Nat
  cur_pipeline : Option Nat
  color_blend : Option BlendState
  alpha_blend : Option BlendState
  stencil : Option StencilState
  color_write : ColorMask
  cull_face : CullFace
  attributes : List (Option CachedAttribute)
deriving DecidableEq

/-- The cache a fresh context starts with (`GraphicsContext::new`, `mod.rs`). -/
def GlCache.new : GlCache :=
  { stored_index_buffer := 0
    stored_index_type := none
    stored_vertex_buffer := 0
    index_buffer := 0
    index_type := none
    vertex_buffer := 0
    cur_pipeline := none
    color_blend := none
    alpha_blend := none
    stencil := none
    color_write := (true, true, true, true)
    cull_face := .nothing
    stored_texture := 0
    textures := List.replicate MAX_SHADERSTAGE_IMAGES 0
    attributes := List.replicate MAX_VERTEX_ATTRIBUTES none }

/-- `GlCache::bind_buffer` from `cache.rs`.  Returns the new cache and the
emitted driver calls. -/
def GlCache.bind_buffer (c : GlCache) (target : Nat) (buffer : Nat)
    (index_type : Option IndexType) : GlCache × List DriverCall :=
  if target = GL_ARRAY_BUFFER then
    if c.vertex_buffer ≠ buffer then
      ({ c with vertex_buffer := buffer }, [.glBindBuffer target buffer])
    else (c, [])
  else
    let (c, calls) :=
      if c.index_buffer ≠ buffer then
        ({ c with index_buffer := buffer }, [.glBindBuffer target buffer])
      else (c, [])
    ({ c with index_type := index_type }, calls)

/-- `GlCache::store_buffer_binding` from `cache.rs` (no driver calls). -/
def GlCache.store_buffer_binding (c : GlCache) (target : Nat) : GlCache :=
  if target = GL_ARRAY_BUFFER then
    { c with stored_vertex_buffer := c.vertex_buffer }
  else
    { c with stored_index_buffer := c.index_buffer,
             stored_index_type := c.index_type }

/-- `GlCache::restore_buffer_binding` from `cache.rs`. -/
def GlCache.restore_buffer_binding (c : GlCache) (target : Nat) :
    GlCache × List DriverCall :=
  if target = GL_ARRAY_BUFFER then
    if c.stored_vertex_buffer ≠ 0 then
      let (c, calls) := c.bind_buffer target c.stored_vertex_buffer none
      ({ c with stored_vertex_buffer := 0 }, calls)
    else (c, [])
  else
    if c.stored_index_buffer ≠ 0 then
      let (c, calls) := c.bind_buffer target c.stored_index_buffer c.stored_index_type
      ({ c with stored_index_buffer := 0 }, calls)
    else (c, [])

/-- `GlCache::bind_texture` from `cache.rs`.  The slot access
`self.textures[slot_index]` panics when the slot is out of range (the array has
`MAX_SHADERSTAGE_IMAGES` entries); that is the `.error` case. -/
def GlCache.bind_texture (c : GlCache) (slot_index : Nat) (texture : Nat) :
    Except Panic (GlCache × List DriverCall) :=
  match c.textures.get? slot_index with
  | none => .error .indexOutOfBounds
  | some cur =>
    let active := DriverCall.glActiveTexture (GL_TEXTURE0 + slot_index)
    if cur ≠ texture then
      .ok ({ c with textures := c.textures.set slot_index texture },
           [active, .glBindTexture GL_TEXTURE_2D texture])
    else .ok (c, [active])

/-- `GlCache::store_texture_binding` from `cache.rs`. -/
def GlCache.store_texture_binding (c : GlCache) (slot_index : Nat) :
    Except Panic GlCache :=
  match c.textures.get? slot_index with
  | none => .error .indexOutOfBounds
  | some cur => .ok { c with stored_texture := cur }

/-- `GlCache::restore_texture_binding` from `cache.rs` (note: the scratch slot
is not cleared). -/
def GlCache.restore_texture_binding (c : GlCache) (slot_index : Nat) :
    Except Panic (GlCache × List DriverCall) :=
  c.bind_texture slot_index c.stored_texture

/-! ## C1: store/restore round-trip on the state cache -/

/-- C1 (counterexample): the claimed round-trip fails when the pre-store
binding is the "none" (id 0) binding.  On a fresh cache (vertex binding 0),
`store_buffer_binding`, `bind_buffer(1)`, `restore_buffer_binding` leaves the
vertex binding at 1, not at the pre-store value 0: `restore_buffer_binding`
is a no-op when the scratch slot holds 0. -/
theorem C1_counterexample_zero_binding_not_restored :
    ((((GlCache.new.store_buffer_binding GL_ARRAY_BUFFER).bind_buffer
        GL_ARRAY_BUFFER 1 none).1.restore_buffer_binding
        GL_ARRAY_BUFFER).1.vertex_buffer = 1) ∧
    GlCache.new.vertex_buffer = 0 := by
  constructor
  · rfl
  · rfl

/-- C1 (amended): store then restore with no intervening bind leaves every
cached binding unchanged; store, bind(X), restore returns the binding to its
pre-store value whenever that value was nonzero (vertex and index targets) and
unconditionally for texture slots — but for the vertex/index targets a
pre-store binding of 0 is *not* restored: the binding stays at X. -/
theorem C1_store_restore_roundtrip :
    -- (1) store;restore with no intervening bind: buffer bindings unchanged
    (∀ (c : GlCache) (target : Nat),
      (((c.store_buffer_binding target).restore_buffer_binding target).1.vertex_buffer
          = c.vertex_buffer) ∧
      (((c.store_buffer_binding target).restore_buffer_binding target).1.index_buffer
          = c.index_buffer) ∧
      (((c.store_buffer_binding target).restore_buffer_binding target).1.index_type
          = c.index_type)) ∧
    -- (2) store;bind(x);restore, vertex target, nonzero pre-store binding
    (∀ (c : GlCache) (x : Nat) (ty : Option IndexType), c.vertex_buffer ≠ 0 →
      (((c.store_buffer_binding GL_ARRAY_BUFFER).bind_buffer GL_ARRAY_BUFFER x
          ty).1.restore_buffer_binding GL_ARRAY_BUFFER).1.vertex_buffer
        = c.vertex_buffer) ∧
    -- (3) store;bind(x);restore, index target, nonzero pre-store binding
    (∀ (c : GlCache) (target x : Nat) (ty : Option IndexType),
      target ≠ GL_ARRAY_BUFFER → c.index_buffer ≠ 0 →
      ((((c.store_buffer_binding target).bind_buffer target x
          ty).1.restore_buffer_binding target).1.index_buffer = c.index_buffer) ∧
      ((((c.store_buffer_binding target).bind_buffer target x
          ty).1.restore_buffer_binding target).1.index_type = c.index_type)) ∧
    -- (4) the corrected part: zero pre-store vertex binding is NOT restored
    (∀ (c : GlCache) (x : Nat) (ty : Option IndexType),
      c.vertex_buffer = 0 → x ≠ 0 →
      (((c.store_buffer_binding GL_ARRAY_BUFFER).bind_buffer GL_ARRAY_BUFFER x
          ty).1.restore_buffer_binding GL_ARRAY_BUFFER).1.vertex_buffer = x) ∧
    -- (5) texture: store;restore with no intervening bind leaves slots unchanged
    (∀ (c : GlCache) (slot cur : Nat), c.textures.get? slot = some cur →
      ∃ cs c2 calls, c.store_texture_binding slot = .ok cs ∧
        cs.restore_texture_binding slot = .ok (c2, calls) ∧
        c2.textures = c.textures) ∧
    -- (6) texture: store;bind(x);restore restores the slot, a 0 binding included
    (∀ (c : GlCache) (slot x cur : Nat), c.textures.get? slot = some cur →
      ∃ cs c1 calls1 c2 calls2, c.store_texture_binding slot = .ok cs ∧
        cs.bind_texture slot x = .ok (c1, calls1) ∧
        c1.restore_texture_binding slot = .ok (c2, calls2) ∧
        c2.textures.get? slot = some cur) := by
  refine ⟨?_, ?_, ?_, ?_, ?_, ?_⟩
  · intro c target
    by_cases ht : target = GL_ARRAY_BUFFER <;>
      simp [GlCache.store_buffer_binding, GlCache.restore_buffer_binding,
        GlCache.bind_buffer, ht] <;> split_ifs <;> simp_all
  · intro c x ty h
    simp only [GlCache.store_buffer_binding, GlCache.restore_buffer_binding,
      GlCache.bind_buffer, if_pos rfl]
    split_ifs <;> simp_all
  · intro c target x ty ht h
    simp only [GlCache.store_buffer_binding, GlCache.restore_buffer_binding,
      GlCache.bind_buffer, if_neg ht]
    split_ifs <;> simp_all
  · intro c x ty h0 hx
    simp only [GlCache.store_buffer_binding, GlCache.restore_buffer_binding,
      GlCache.bind_buffer, if_pos rfl]
    split_ifs <;> simp_all
  · intro c slot cur h
    have h' : c.textures[slot]? = some cur := by simpa using h
    refine ⟨{ c with stored_texture := cur }, { c with stored_texture := cur },
      [.glActiveTexture (GL_TEXTURE0 + slot)], ?_, ?_, rfl⟩
    · simp [GlCache.store_texture_binding, h']
    · simp [GlCache.restore_texture_binding, GlCache.bind_texture, h']
  · intro c slot x cur h
    have h' : c.textures[slot]? = some cur := by simpa using h
    have hlt : slot < c.textures.length := List.get?_eq_some.mp h |>.choose
    by_cases hx : cur = x
    · subst hx
      refine ⟨{ c with stored_texture := cur }, { c with stored_texture := cur },
        [.glActiveTexture (GL_TEXTURE0 + slot)], { c with stored_texture := cur },
        [.glActiveTexture (GL_TEXTURE0 + slot)], ?_, ?_, ?_, h⟩
      · simp [GlCache.store_texture_binding, h']
      · simp [GlCache.bind_texture, h']
      · simp [GlCache.restore_texture_binding, GlCache.bind_texture, h']
    · refine ⟨{ c with stored_texture := cur },
        { c with stored_texture := cur, textures := c.textures.set slot x },
        [.glActiveTexture (GL_TEXTURE0 + slot), .glBindTexture GL_TEXTURE_2D x],
        { c with stored_texture := cur,
                 textures := (c.textures.set slot x).set slot cur },
        [.glActiveTexture (GL_TEXTURE0 + slot), .glBindTexture GL_TEXTURE_2D cur],
        ?_, ?_, ?_, ?_⟩
      · simp [GlCache.store_texture_binding, h']
      · simp [GlCache.bind_texture, h', hx]
      · have h2 : (c.textures.set slot x)[slot]? = some x :=
          List.getElem?_set_eq_of_lt x (by simpa using hlt)
        simp [GlCache.restore_texture_binding, GlCache.bind_texture, h2, Ne.symm hx]
      · have h3 : ((c.textures.set slot x).set slot cur)[slot]? = some cur :=
          List.getElem?_set_eq_of_lt cur (by simpa using hlt)
        simpa using h3

/-- A cache with nonzero buffer bindings, used to instantiate
`C1_store_restore_roundtrip` on concrete inputs. -/
def exampleBoundCache : GlCache :=
  { GlCache.new with vertex_buffer := 5, index_buffer := 6,
                     index_type := some .short }

/-- C1 witness: the round-trip theorem applied at concrete inputs (vertex
target with nonzero pre-store binding; zero pre-store binding staying at the
newly bound id; a texture slot holding 0). -/
theorem C1_store_restore_roundtrip_witness :
    ((((exampleBoundCache.store_buffer_binding GL_ARRAY_BUFFER).bind_buffer
        GL_ARRAY_BUFFER 7 none).1.restore_buffer_binding
        GL_ARRAY_BUFFER).1.vertex_buffer = exampleBoundCache.vertex_buffer) ∧
    ((((exampleBoundCache.store_buffer_binding GL_ELEMENT_ARRAY_BUFFER).bind_buffer
        GL_ELEMENT_ARRAY_BUFFER 7 (some .int)).1.restore_buffer_binding
        GL_ELEMENT_ARRAY_BUFFER).1.index_buffer = exampleBoundCache.index_buffer) ∧
    ((((GlCache.new.store_buffer_binding GL_ARRAY_BUFFER).bind_buffer
        GL_ARRAY_BUFFER 7 none).1.restore_buffer_binding
        GL_ARRAY_BUFFER).1.vertex_buffer = 7) ∧
    (∃ cs c1 calls1 c2 calls2,
      GlCache.new.store_texture_binding 0 = .ok cs ∧
      cs.bind_texture 0 9 = .ok (c1, calls1) ∧
      c1.restore_texture_binding 0 = .ok (c2, calls2) ∧
      c2.textures.get? 0 = some 0) :=
  ⟨C1_store_restore_roundtrip.2.1 exampleBoundCache 7 none (by decide),
   (C1_store_restore_roundtrip.2.2.1 exampleBoundCache GL_ELEMENT_ARRAY_BUFFER 7
      (some .int) (by decide) (by decide)).1,
   C1_store_restore_roundtrip.2.2.2.1 GlCache.new 7 none (by decide) (by decide),
   C1_store_restore_roundtrip.2.2.2.2.2 GlCache.new 0 9 0 (by decide)⟩

/-! ## The graphics context (`mod.rs`) -/

/-- `Features` from `features.rs`. -/
structure Features where
  instancing : Bool
deriving DecidableEq, Repr

/-- `Features::from_gles2` from `features.rs`. -/
def Features.from_gles2 (is_gles2 : Bool) : Features :=
  { instancing := !is_gles2 }

/-- `PrimitiveType` from `pipeline.rs`. -/
inductive PrimitiveType where
  | triangles | triangleStrip | lines | lineStrip
deriving DecidableEq, Repr

/-- Modelled from the spec: Format/Layout table, primitive topology to driver
enum (`GL_TRIANGLES = 4`, `GL_TRIANGLE_STRIP = 5`, `GL_LINES = 1`,
`GL_LINE_STRIP = 3`); the `From` impl is outside the sources. -/
def PrimitiveType.gl : PrimitiveType → Nat
  | .triangles => 4 | .triangleStrip => 5 | .lines => 1 | .lineStrip => 3

/-- `PipelineConf` from `pipeline.rs`.  The `depth_write_offset :
Option<(f32, f32)>` field is omitted: it is floating-point data that no
operation in the sources ever reads. -/
structure PipelineConf where
  cull_face : CullFace
  front_face_order : FrontFaceOrder
  depth_test : Comparison
  depth_write : Bool
  color_blend : Option BlendState
  alpha_blend : Option BlendState
  stencil_test : Option StencilState
  color_write : ColorMask
  primitive_type : PrimitiveType
deriving DecidableEq, Repr

/-- `Default for PipelineConf` from `pipeline.rs`. -/
def PipelineConf.default : PipelineConf :=
  { cull_face := .nothing
    front_face_order := .counterClockwise
    depth_test := .always
    depth_write := false
    color_blend := none
    alpha_blend := none
    stencil_test := none
    color_write := (true, true, true, true)
    primitive_type := .triangles }

/-- `PipelineInternal` from `pipeline.rs` (the `Shader` handle is its arena
index). -/
structure PipelineInternal where
  layout : List (Option VertexAttributeInternal)
  shader : Nat
  params : PipelineConf
deriving DecidableEq, Repr

/-- Modelled from the spec: the uniform scalar/vector/matrix/int types of the
uniform schema (`uniform.rs` is not under the sources; the variants are the
ones `apply_uniforms_from_bytes` matches on). -/
inductive UniformType where
  | float1 | float2 | float3 | float4
  | int1 | int2 | int3 | int4
  | mat4
deriving DecidableEq, Repr

/-- Modelled from the spec: `UniformType::size` in bytes (`uniform.rs` is not
under the sources; a float/int scalar is 4 bytes, vectors multiply by the
component count, a 4x4 float matrix is 64 bytes). -/
def UniformType.size : UniformType → Nat
  | .float1 => 4 | .float2 => 8 | .float3 => 12 | .float4 => 16
  | .int1 => 4 | .int2 => 8 | .int3 => 12 | .int4 => 16
  | .mat4 => 64

/-- `ShaderImage` from `shader.rs`. -/
structure ShaderImage where
  gl_loc : Option Int
deriving DecidableEq, Repr

/-- `ShaderUniform` from `shader.rs` (the unused `_offset`/`_size` fields are
omitted). -/
structure ShaderUniform where
  gl_loc : Option Int
  uniform_type : UniformType
  array_count : Int
deriving DecidableEq, Repr

/-- `ShaderInternal` from `shader.rs`. -/
structure ShaderInternal where
  program : Nat
  images : List ShaderImage
  uniforms : List ShaderUniform
deriving DecidableEq, Repr

/-- `GraphicsContext` from `mod.rs`, restricted to the fields the verified
operations read (`passes`, `default_framebuffer` and the window pointer belong
to the excluded render-pass/window components). -/
structure GraphicsContext where
  shaders : List ShaderInternal
  pipelines : List PipelineInternal
  cache : GlCache
  features : Features
deriving DecidableEq

/-- `GraphicsContext::set_cull_face` from `mod.rs`. -/
def GraphicsContext.set_cull_face (ctx : GraphicsContext) (cull_face : CullFace) :
    GraphicsContext × List DriverCall :=
  if ctx.cache.cull_face = cull_face then (ctx, [])
  else
    let calls := match cull_face with
      | .nothing => [.glDisable GL_CULL_FACE_CAP]
      | .front => [.glEnable GL_CULL_FACE_CAP, .glCullFace GL_FRONT]
      | .back => [.glEnable GL_CULL_FACE_CAP, .glCullFace GL_BACK]
    ({ ctx with cache := { ctx.cache with cull_face := cull_face } }, calls)

/-- `GraphicsContext::set_color_write` from `mod.rs`. -/
def GraphicsContext.set_color_write (ctx : GraphicsContext) (color_write : ColorMask) :
    GraphicsContext × List DriverCall :=
  if ctx.cache.color_write = color_write then (ctx, [])
  else
    ({ ctx with cache := { ctx.cache with color_write := color_write } },
     [.glColorMask color_write.1 color_write.2.1 color_write.2.2.1 color_write.2.2.2])

/-- `GraphicsContext::set_blend` from `mod.rs`.  Panics when an alpha blend
function is supplied without a color blend function. -/
def GraphicsContext.set_blend (ctx : GraphicsContext) (color_blend : Option BlendState)
    (alpha_blend : Option BlendState) : Except Panic (GraphicsContext × List DriverCall) :=
  if color_blend.isNone ∧ alpha_blend.isSome then
    .error .alphaBlendWithoutColorBlend
  else if ctx.cache.color_blend = color_blend ∧ ctx.cache.alpha_blend = alpha_blend then
    .ok (ctx, [])
  else
    let calls := match color_blend with
      | some cb =>
        (if ctx.cache.color_blend.isNone then [DriverCall.glEnable GL_BLEND] else []) ++
        (match alpha_blend with
         | some ab =>
           [.glBlendFuncSeparate cb.sfactor.gl cb.dfactor.gl ab.sfactor.gl ab.dfactor.gl,
            .glBlendEquationSeparate cb.equation.gl ab.equation.gl]
         | none =>
           [.glBlendFunc cb.sfactor.gl cb.dfactor.gl,
            .glBlendEquationSeparate cb.equation.gl cb.equation.gl])
      | none =>
        if ctx.cache.color_blend.isSome then [DriverCall.glDisable GL_BLEND] else []
    .ok ({ ctx with cache := { ctx.cache with color_blend := color_blend,
                                              alpha_blend := alpha_blend } }, calls)

/-- `GraphicsContext::set_stencil` from `mod.rs`. -/
def GraphicsContext.set_stencil (ctx : GraphicsContext)
    (stencil_test : Option StencilState) : GraphicsContext × List DriverCall :=
  if ctx.cache.stencil = stencil_test then (ctx, [])
  else
    let calls := match stencil_test with
      | some s =>
        (if ctx.cache.stencil.isNone then [DriverCall.glEnable GL_STENCIL_TEST] else []) ++
        [.glStencilOpSeparate GL_FRONT s.front.fail_op.gl s.front.depth_fail_op.gl
            s.front.pass_op.gl,
         .glStencilFuncSeparate GL_FRONT s.front.test_func.gl s.front.test_ref
            s.front.test_mask,
         .glStencilMaskSeparate GL_FRONT s.front.write_mask,
         .glStencilOpSeparate GL_BACK s.back.fail_op.gl s.back.depth_fail_op.gl
            s.back.pass_op.gl,
         .glStencilFuncSeparate GL_BACK s.back.test_func.gl s.back.test_ref
            s.back.test_mask,
         .glStencilMaskSeparate GL_BACK s.back.write_mask]
      | none =>
        if ctx.cache.stencil.isSome then [DriverCall.glDisable GL_STENCIL_TEST] else []
    ({ ctx with cache := { ctx.cache with stencil := stencil_test } }, calls)

/-- `GraphicsContext::apply_pipeline` from `pipeline.rs`: records the pipeline
handle in the cache, activates the program, enables scissor testing, applies
depth/front-face state unconditionally, and funnels cull/blend/stencil/
color-write state through the deduplicating setters.  Panics (via `set_blend`)
for a pipeline with an alpha blend but no color blend; a dangling pipeline or
shader handle is an index panic. -/
def GraphicsContext.apply_pipeline (ctx : GraphicsContext) (pipeline : Nat) :
    Except Panic (GraphicsContext × List DriverCall) :=
  let ctx := { ctx with cache := { ctx.cache with cur_pipeline := some pipeline } }
  match ctx.pipelines.get? pipeline with
  | none => .error .indexOutOfBounds
  | some pip =>
    match ctx.shaders.get? pip.shader with
    | none => .error .indexOutOfBounds
    | some shader =>
      let calls1 := [DriverCall.glUseProgram shader.program,
                     DriverCall.glEnable GL_SCISSOR_TEST]
      let calls2 := if pip.params.depth_write then
          [DriverCall.glEnable GL_DEPTH_TEST, DriverCall.glDepthFunc pip.params.depth_test.gl]
        else [DriverCall.glDisable GL_DEPTH_TEST]
      let calls3 := match pip.params.front_face_order with
        | .clockwise => [DriverCall.glFrontFace GL_CW]
        | .counterClockwise => [DriverCall.glFrontFace GL_CCW]
      let r4 := ctx.set_cull_face pip.params.cull_face
      match r4.1.set_blend pip.params.color_blend pip.params.alpha_blend with
      | .error e => .error e
      | .ok r5 =>
        let r6 := r5.1.set_stencil pip.params.stencil_test
        let r7 := r6.1.set_color_write pip.params.color_write
        .ok (r7.1, calls1 ++ calls2 ++ calls3 ++ r4.2 ++ r5.2 ++ r6.2 ++ r7.2)

/-- `GraphicsContext::draw` from `mod.rs`.  `draw` borrows the context
immutably (`&self`), so it can only emit driver calls, never change the cache;
the embedding returns the emitted calls. -/
def GraphicsContext.draw (ctx : GraphicsContext) (base_element num_elements
    num_instances : Int) : Except Panic (List DriverCall) :=
  match ctx.cache.cur_pipeline with
  | none => .error .drawWithoutPipeline
  | some p =>
    if ¬ctx.features.instancing ∧ num_instances ≠ 1 then
      -- "Instanced rendering is not supported by the GPU / Ignoring this draw
      -- call" is printed to stderr; no driver call is emitted.
      .ok []
    else
      match ctx.pipelines.get? p with
      | none => .error .indexOutOfBounds
      | some pip =>
        let primitive_type := pip.params.primitive_type.gl
        match ctx.cache.index_type with
        | none => .error .unsetIndexBufferType
        | some index_type =>
          .ok [if ctx.features.instancing then
                 DriverCall.glDrawElementsInstanced primitive_type num_elements
                   index_type.glType ((index_type.size : Int) * base_element)
                   num_instances
               else
                 DriverCall.glDrawElements primitive_type num_elements
                   index_type.glType ((index_type.size : Int) * base_element)]

/-! ## Helper lemmas about the state setters -/

/-- `set_cull_face` always leaves the cache holding the requested value (both
the no-op and the emitting branch). -/
theorem set_cull_face_fst (ctx : GraphicsContext) (cf : CullFace) :
    (ctx.set_cull_face cf).1
      = { ctx with cache := { ctx.cache with cull_face := cf } } := by
  unfold GraphicsContext.set_cull_face
  split
  · next h => rw [← h]
  · rfl

/-- `set_cull_face` is a no-op when the cache already holds the value. -/
theorem set_cull_face_noop (ctx : GraphicsContext) (cf : CullFace)
    (h : ctx.cache.cull_face = cf) : ctx.set_cull_face cf = (ctx, []) := by
  unfold GraphicsContext.set_cull_face
  simp [h]

/-- `set_color_write` always leaves the cache holding the requested value. -/
theorem set_color_write_fst (ctx : GraphicsContext) (cw : ColorMask) :
    (ctx.set_color_write cw).1
      = { ctx with cache := { ctx.cache with color_write := cw } } := by
  unfold GraphicsContext.set_color_write
  split
  · next h => rw [← h]
  · rfl

/-- `set_color_write` is a no-op when the cache already holds the value. -/
theorem set_color_write_noop (ctx : GraphicsContext) (cw : ColorMask)
    (h : ctx.cache.color_write = cw) : ctx.set_color_write cw = (ctx, []) := by
  unfold GraphicsContext.set_color_write
  simp [h]

/-- `set_stencil` always leaves the cache holding the requested value. -/
theorem set_stencil_fst (ctx : GraphicsContext) (st : Option StencilState) :
    (ctx.set_stencil st).1
      = { ctx with cache := { ctx.cache with stencil := st } } := by
  unfold GraphicsContext.set_stencil
  split
  · next h => rw [← h]
  · rfl

/-- `set_stencil` is a no-op when the cache already holds the value. -/
theorem set_stencil_noop (ctx : GraphicsContext) (st : Option StencilState)
    (h : ctx.cache.stencil = st) : ctx.set_stencil st = (ctx, []) := by
  unfold GraphicsContext.set_stencil
  simp [h]

/-- `set_blend` panics exactly on an alpha blend without a color blend. -/
theorem set_blend_err (ctx : GraphicsContext) (cb ab : Option BlendState)
    (h : cb.isNone ∧ ab.isSome) :
    ctx.set_blend cb ab = .error .alphaBlendWithoutColorBlend := by
  unfold GraphicsContext.set_blend
  simp [h]

/-- A successful `set_blend` leaves the cache holding the requested values and
certifies that the panic guard did not fire. -/
theorem set_blend_ok (ctx ctx' : GraphicsContext) (cb ab : Option BlendState)
    (calls : List DriverCall) (h : ctx.set_blend cb ab = .ok (ctx', calls)) :
    ctx' = { ctx with cache := { ctx.cache with color_blend := cb,
                                                alpha_blend := ab } } ∧
    ¬(cb.isNone ∧ ab.isSome) := by
  unfold GraphicsContext.set_blend at h
  split at h
  · exact absurd h (by simp)
  · next hg =>
    refine ⟨?_, hg⟩
    split at h
    · next he =>
      obtain ⟨h1, h2⟩ := he
      obtain ⟨rfl, -⟩ := by exact Prod.mk.injEq .. ▸ (Except.ok.injEq .. ▸ h)
      rw [← h1, ← h2]
    · obtain ⟨rfl, -⟩ := by exact Prod.mk.injEq .. ▸ (Except.ok.injEq .. ▸ h)
      rfl

/-- `set_blend` is a no-op when the cache already holds both values and the
guard does not fire. -/
theorem set_blend_noop (ctx : GraphicsContext) (cb ab : Option BlendState)
    (hg : ¬(cb.isNone ∧ ab.isSome)) (h1 : ctx.cache.color_blend = cb)
    (h2 : ctx.cache.alpha_blend = ab) : ctx.set_blend cb ab = .ok (ctx, []) := by
  unfold GraphicsContext.set_blend
  simp [hg, h1, h2]
  intro hcb
  subst hcb
  cases ab with
  | none => rfl
  | some a => exact absurd ⟨rfl, rfl⟩ hg

/-- A successful `apply_pipeline` leaves the cache with the pipeline handle
recorded and every deduplicated state field equal to the pipeline's params,
and certifies the `set_blend` panic guard did not fire. -/
theorem apply_pipeline_ok_state (ctx ctx1 : GraphicsContext) (p : Nat)
    (pip : PipelineInternal) (calls : List DriverCall)
    (hp : ctx.pipelines.get? p = some pip)
    (h : ctx.apply_pipeline p = .ok (ctx1, calls)) :
    ctx1 = { ctx with cache := { ctx.cache with
      cur_pipeline := some p,
      cull_face := pip.params.cull_face,
      color_blend := pip.params.color_blend,
      alpha_blend := pip.params.alpha_blend,
      stencil := pip.params.stencil_test,
      color_write := pip.params.color_write } } ∧
    ¬(pip.params.color_blend.isNone ∧ pip.params.alpha_blend.isSome) := by
  simp only [GraphicsContext.apply_pipeline] at h
  split at h
  · exact absurd h (by simp)
  · next pip' hpip' =>
    have hpe : pip' = pip := by
      have h2 : ctx.pipelines.get? p = some pip' := hpip'
      exact Option.some.inj (h2.symm.trans hp)
    subst hpe
    split at h
    · exact absurd h (by simp)
    · next shader hshader =>
      split at h
      · exact absurd h (by simp)
      · next r5 hsb =>
        rw [Except.ok.injEq, Prod.mk.injEq] at h
        obtain ⟨h1, -⟩ := h
        obtain ⟨hblend, hguard⟩ := set_blend_ok _ r5.1 _ _ r5.2 hsb
        refine ⟨?_, hguard⟩
        rw [← h1, set_color_write_fst, set_stencil_fst, hblend, set_cull_face_fst]

/-- Applying a pipeline whose state the cache already fully holds re-issues
only the unconditional program/scissor/depth/front-face calls, emits nothing
through the deduplicating setters, and leaves the context unchanged. -/
theorem apply_pipeline_warm (ctx : GraphicsContext) (p : Nat)
    (pip : PipelineInternal) (shader : ShaderInternal)
    (hp : ctx.pipelines.get? p = some pip)
    (hs : ctx.shaders.get? pip.shader = some shader)
    (h1 : ctx.cache.cur_pipeline = some p)
    (h2 : ctx.cache.cull_face = pip.params.cull_face)
    (h3 : ctx.cache.color_blend = pip.params.color_blend)
    (h4 : ctx.cache.alpha_blend = pip.params.alpha_blend)
    (h5 : ctx.cache.stencil = pip.params.stencil_test)
    (h6 : ctx.cache.color_write = pip.params.color_write)
    (hg : ¬(pip.params.color_blend.isNone ∧ pip.params.alpha_blend.isSome)) :
    ctx.apply_pipeline p = .ok (ctx,
      [DriverCall.glUseProgram shader.program, .glEnable GL_SCISSOR_TEST] ++
      (if pip.params.depth_write then
        [DriverCall.glEnable GL_DEPTH_TEST, .glDepthFunc pip.params.depth_test.gl]
       else [DriverCall.glDisable GL_DEPTH_TEST]) ++
      (match pip.params.front_face_order with
       | .clockwise => [DriverCall.glFrontFace GL_CW]
       | .counterClockwise => [DriverCall.glFrontFace GL_CCW])) := by
  have hq : { ctx with cache := { ctx.cache with cur_pipeline := some p } } = ctx := by
    rw [← h1]
  simp only [GraphicsContext.apply_pipeline, hq, hp, hs,
    set_cull_face_noop ctx _ h2, set_blend_noop ctx _ _ hg h3 h4,
    set_stencil_noop ctx _ h5, set_color_write_noop ctx _ h6]
  simp

/-! ## C2: idempotent binding -/

/-- The cache after binding texture 5 to slot 0 of a fresh cache. -/
def texBoundCache : GlCache :=
  { GlCache.new with textures := GlCache.new.textures.set 0 5 }

/-- C2 (counterexample): the claim "the second call issues zero additional
driver calls" is false for `bind_texture`: a second, identical
`bind_texture(0, 5)` still emits the `glActiveTexture` driver call
unconditionally (one call, not zero).  (`apply_pipeline` likewise re-emits its
program/scissor/depth/front-face calls, see `C2_idempotent_binding`.) -/
theorem C2_counterexample_second_bind_texture_emits_a_call :
    GlCache.new.bind_texture 0 5
      = .ok (texBoundCache, [.glActiveTexture 33984, .glBindTexture GL_TEXTURE_2D 5]) ∧
    texBoundCache.bind_texture 0 5 = .ok (texBoundCache, [.glActiveTexture 33984]) ∧
    ([DriverCall.glActiveTexture 33984] : List DriverCall) ≠ [] := by
  refine ⟨rfl, rfl, by decide⟩

/-- C2 (amended): repeating an operation with identical arguments always
reproduces the same cached state as a single call; the "zero additional driver
calls" part holds for `bind_buffer`, while a repeated `bind_texture` still
emits exactly the `glActiveTexture` unit-selection call (but no rebind), and a
repeated `apply_pipeline` still emits exactly the unconditional
program/scissor/depth/front-face calls (but nothing through the deduplicated
cull/blend/stencil/color-write setters). -/
theorem C2_idempotent_binding :
    (∀ (c : GlCache) (target buffer : Nat) (ty : Option IndexType),
      (c.bind_buffer target buffer ty).1.bind_buffer target buffer ty
        = ((c.bind_buffer target buffer ty).1, [])) ∧
    (∀ (c c1 : GlCache) (slot texture : Nat) (calls1 : List DriverCall),
      c.bind_texture slot texture = .ok (c1, calls1) →
      c1.bind_texture slot texture
        = .ok (c1, [.glActiveTexture (GL_TEXTURE0 + slot)])) ∧
    (∀ (ctx ctx1 : GraphicsContext) (p : Nat) (pip : PipelineInternal)
      (shader : ShaderInternal) (calls1 : List DriverCall),
      ctx.pipelines.get? p = some pip →
      ctx.shaders.get? pip.shader = some shader →
      ctx.apply_pipeline p = .ok (ctx1, calls1) →
      ctx1.apply_pipeline p = .ok (ctx1,
        [DriverCall.glUseProgram shader.program, .glEnable GL_SCISSOR_TEST] ++
        (if pip.params.depth_write then
          [DriverCall.glEnable GL_DEPTH_TEST, .glDepthFunc pip.params.depth_test.gl]
         else [DriverCall.glDisable GL_DEPTH_TEST]) ++
        (match pip.params.front_face_order with
         | .clockwise => [DriverCall.glFrontFace GL_CW]
         | .counterClockwise => [DriverCall.glFrontFace GL_CCW]))) := by
  refine ⟨?_, ?_, ?_⟩
  · intro c target buffer ty
    unfold GlCache.bind_buffer
    by_cases ht : target = GL_ARRAY_BUFFER <;> simp [ht] <;> split_ifs <;> simp_all
  · intro c c1 slot texture calls1 h
    unfold GlCache.bind_texture at h ⊢
    cases hm : c.textures.get? slot with
    | none => rw [hm] at h; exact absurd h (by simp)
    | some cur =>
      rw [hm] at h
      have hlt : slot < c.textures.length := (List.get?_eq_some.mp hm).choose
      by_cases hc : cur = texture
      · subst hc
        simp only [ne_eq, not_true_eq_false, if_neg, ite_false, if_false] at h
        simp at h
        obtain ⟨rfl, -⟩ := h
        simp [show c.textures[slot]? = some cur from by simpa using hm]
      · simp only [ne_eq, hc, not_false_eq_true, if_true, ite_true] at h
        simp [hc] at h
        obtain ⟨rfl, -⟩ := h
        have h2 : (c.textures.set slot texture)[slot]? = some texture :=
          List.getElem?_set_eq_of_lt texture hlt
        simp [h2]
  · intro ctx ctx1 p pip shader calls1 hp hs h
    obtain ⟨hstate, hguard⟩ := apply_pipeline_ok_state ctx ctx1 p pip calls1 hp h
    subst hstate
    exact apply_pipeline_warm _ p pip shader hp hs rfl rfl rfl rfl rfl rfl hguard

/-- A one-pipeline context used to instantiate the idempotence theorem. -/
def examplePipelineCtx : GraphicsContext :=
  { shaders := [{ program := 11, images := [], uniforms := [] }]
    pipelines := [{ layout := [], shader := 0, params := PipelineConf.default }]
    cache := GlCache.new
    features := { instancing := true } }

/-- C2 witness: the idempotence theorem applied at concrete inputs. -/
theorem C2_idempotent_binding_witness :
    ((GlCache.new.bind_buffer GL_ARRAY_BUFFER 3 none).1.bind_buffer
        GL_ARRAY_BUFFER 3 none
      = ((GlCache.new.bind_buffer GL_ARRAY_BUFFER 3 none).1, [])) ∧
    (texBoundCache.bind_texture 0 5
      = .ok (texBoundCache, [.glActiveTexture (GL_TEXTURE0 + 0)])) ∧
    (∀ (ctx1 : GraphicsContext) (calls1 : List DriverCall),
      examplePipelineCtx.apply_pipeline 0 = .ok (ctx1, calls1) →
      ctx1.apply_pipeline 0 = .ok (ctx1,
        [DriverCall.glUseProgram 11, .glEnable GL_SCISSOR_TEST] ++
        [DriverCall.glDisable GL_DEPTH_TEST] ++ [DriverCall.glFrontFace GL_CCW])) :=
  ⟨C2_idempotent_binding.1 GlCache.new GL_ARRAY_BUFFER 3 none,
   C2_idempotent_binding.2.1 GlCache.new texBoundCache 0 5
     [.glActiveTexture 33984, .glBindTexture GL_TEXTURE_2D 5] rfl,
   fun ctx1 calls1 h =>
     C2_idempotent_binding.2.2 examplePipelineCtx ctx1 0
       { layout := [], shader := 0, params := PipelineConf.default }
       { program := 11, images := [], uniforms := [] } calls1 rfl rfl h⟩

/-! ## C9: alpha blend without color blend panics -/

/-- C9: `set_blend` panics whenever `alpha_blend` is `Some(..)` while
`color_blend` is `None`, and consequently `apply_pipeline` is fatal for any
pipeline (with valid pipeline and shader handles) configured that way. -/
theorem C9_alpha_blend_without_color_blend_panics :
    (∀ (ctx : GraphicsContext) (ab : BlendState),
      ctx.set_blend none (some ab) = .error .alphaBlendWithoutColorBlend) ∧
    (∀ (ctx : GraphicsContext) (p : Nat) (pip : PipelineInternal)
      (shader : ShaderInternal),
      ctx.pipelines.get? p = some pip →
      ctx.shaders.get? pip.shader = some shader →
      pip.params.color_blend = none →
      pip.params.alpha_blend.isSome →
      ctx.apply_pipeline p = .error .alphaBlendWithoutColorBlend) := by
  constructor
  · intro ctx ab
    exact set_blend_err ctx none (some ab) (by simp)
  · intro ctx p pip shader hp hs hcb hab
    simp only [GraphicsContext.apply_pipeline, hp, hs]
    rw [set_blend_err _ _ _ ⟨by simp [hcb], hab⟩]

/-- A context holding one pipeline configured with an alpha blend function but
no color blend function. -/
def alphaOnlyBlendCtx : GraphicsContext :=
  { shaders := [{ program := 11, images := [], uniforms := [] }]
    pipelines := [{ layout := [], shader := 0,
                    params := { PipelineConf.default with
                      alpha_blend := some { equation := .add, sfactor := .zero,
                                            dfactor := .one } } }]
    cache := GlCache.new
    features := { instancing := true } }

/-- C9 witness: both parts applied at concrete inputs. -/
theorem C9_alpha_blend_without_color_blend_panics_witness :
    (alphaOnlyBlendCtx.set_blend none
        (some { equation := .add, sfactor := .zero, dfactor := .one })
      = .error .alphaBlendWithoutColorBlend) ∧
    alphaOnlyBlendCtx.apply_pipeline 0 = .error .alphaBlendWithoutColorBlend :=
  ⟨C9_alpha_blend_without_color_blend_panics.1 alphaOnlyBlendCtx
      { equation := .add, sfactor := .zero, dfactor := .one },
   C9_alpha_blend_without_color_blend_panics.2 alphaOnlyBlendCtx 0
      { layout := [], shader := 0,
        params := { PipelineConf.default with
          alpha_blend := some { equation := .add, sfactor := .zero,
                                dfactor := .one } } }
      { program := 11, images := [], uniforms := [] } rfl rfl rfl rfl⟩

/-! ## C8: the instancing gate, and C10: the unset-index-type panic -/

/-- A context with instancing unavailable and no pipeline applied. -/
def gles2FreshCtx : GraphicsContext :=
  { shaders := [], pipelines := [], cache := GlCache.new,
    features := Features.from_gles2 true }

/-- C8 (counterexample): "every call to draw with num_instances = 2 ...
returns normally without error" fails: on a context with `instancing == false`
but no applied pipeline, `draw(0, 6, 2)` panics on the pipeline assertion
(which precedes the instancing gate) instead of returning normally. -/
theorem C8_counterexample_draw_without_pipeline_panics :
    gles2FreshCtx.features.instancing = false ∧
    gles2FreshCtx.draw 0 6 2 = .error .drawWithoutPipeline := by
  exact ⟨rfl, rfl⟩

/-- C8 (amended): on a context reporting `instancing == false` with a pipeline
applied (the handle need not even be valid: the gate fires before the
pipeline lookup), a draw requesting `num_instances ≠ 1` emits no driver call
at all — in particular no draw call — and returns normally.  `draw` borrows
the context immutably, so all cached state is unchanged by construction. -/
theorem C8_instancing_gate (ctx : GraphicsContext) (p : Nat)
    (base_element num_elements num_instances : Int)
    (hf : ctx.features.instancing = false)
    (hp : ctx.cache.cur_pipeline = some p)
    (hn : num_instances ≠ 1) :
    ctx.draw base_element num_elements num_instances = .ok [] := by
  unfold GraphicsContext.draw
  rw [hp]
  simp [hf, hn]

/-- A gles2 context (no instancing) with one applied pipeline and no index
type recorded. -/
def gles2PipelineCtx : GraphicsContext :=
  { shaders := [{ program := 11, images := [], uniforms := [] }]
    pipelines := [{ layout := [], shader := 0, params := PipelineConf.default }]
    cache := { GlCache.new with cur_pipeline := some 0 }
    features := Features.from_gles2 true }

/-- C8 witness: the instancing-gate theorem at a concrete context. -/
theorem C8_instancing_gate_witness : gles2PipelineCtx.draw 0 6 2 = .ok [] :=
  C8_instancing_gate gles2PipelineCtx 0 0 6 2 rfl rfl (by decide)

/-- C10 (counterexample): "draw ... fatally panics whenever the State Cache
has no recorded index-buffer element type" fails when the instancing gate
skips the draw first: with `instancing == false`, an applied pipeline and no
recorded index type, `draw(0, 6, 2)` returns normally (without a driver call)
instead of panicking. -/
theorem C10_counterexample_gate_skips_before_index_check :
    gles2PipelineCtx.cache.index_type = none ∧
    gles2PipelineCtx.cache.cur_pipeline = some 0 ∧
    gles2PipelineCtx.draw 0 6 2 = .ok [] := by
  exact ⟨rfl, rfl, rfl⟩

/-- C10 (amended): whenever the draw is not skipped by the instancing gate
(instancing supported, or exactly one instance requested) and the applied
pipeline handle is valid, `draw` panics with "Unset index buffer type" if the
cache records no index-buffer element type; with a recorded element type it
emits exactly one indexed-draw driver call.  So a draw that actually reaches
the driver requires both an applied pipeline and a previously applied
index-buffer binding. -/
theorem C10_draw_requires_index_type (ctx : GraphicsContext) (p : Nat)
    (pip : PipelineInternal) (base_element num_elements num_instances : Int)
    (hp : ctx.cache.cur_pipeline = some p)
    (hpip : ctx.pipelines.get? p = some pip)
    (hgate : ctx.features.instancing = true ∨ num_instances = 1) :
    (ctx.cache.index_type = none →
      ctx.draw base_element num_elements num_instances
        = .error .unsetIndexBufferType) ∧
    (∀ it : IndexType, ctx.cache.index_type = some it →
      ctx.draw base_element num_elements num_instances
        = .ok [if ctx.features.instancing then
                 DriverCall.glDrawElementsInstanced pip.params.primitive_type.gl
                   num_elements it.glType ((it.size : Int) * base_element)
                   num_instances
               else
                 DriverCall.glDrawElements pip.params.primitive_type.gl
                   num_elements it.glType ((it.size : Int) * base_element)]) := by
  have hpip' : ctx.pipelines[p]? = some pip := by simpa using hpip
  constructor
  · intro hit
    unfold GraphicsContext.draw
    rw [hp]
    rcases hgate with h | h <;> simp [h, hpip', hit]
  · intro it hit
    unfold GraphicsContext.draw
    rw [hp]
    rcases hgate with h | h <;> simp [h, hpip', hit]

/-- A gles2 context with an applied pipeline and a recorded short index type. -/
def gles2IndexBoundCtx : GraphicsContext :=
  { gles2PipelineCtx with
    cache := { gles2PipelineCtx.cache with index_type := some .short } }

/-- C10 witness: the theorem applied at concrete contexts, both without and
with a recorded index type (non-instanced path, `num_instances = 1`). -/
theorem C10_draw_requires_index_type_witness :
    gles2PipelineCtx.draw 0 6 1 = .error .unsetIndexBufferType ∧
    gles2IndexBoundCtx.draw 2 6 1
      = .ok [DriverCall.glDrawElements 4 6 5123 4] :=
  ⟨(C10_draw_requires_index_type gles2PipelineCtx 0
      { layout := [], shader := 0, params := PipelineConf.default } 0 6 1
      rfl rfl (Or.inr rfl)).1 rfl,
   by
    have := (C10_draw_requires_index_type gles2IndexBoundCtx 0
      { layout := [], shader := 0, params := PipelineConf.default } 2 6 1
      rfl rfl (Or.inr rfl)).2 .short rfl
    simpa using this⟩

/-! ## Buffers (`buffer.rs`) and C7: the update capacity invariant -/

/-- `BufferType` from `buffer.rs`. -/
inductive BufferType where
  | vertexBuffer | indexBuffer
deriving DecidableEq, Repr

/-- `gl_buffer_target` from `buffer.rs`. -/
def gl_buffer_target : BufferType → Nat
  | .vertexBuffer => GL_ARRAY_BUFFER
  | .indexBuffer => GL_ELEMENT_ARRAY_BUFFER

/-- `Buffer` from `buffer.rs` (`size` is the original byte size recorded at
creation; `update` takes `&self` and can never change it). -/
structure Buffer where
  gl_buf : Nat
  buffer_type : BufferType
  size : Nat
  index_type : Option IndexType
deriving DecidableEq, Repr

/-- `IndexType::for_type::<T>` from `buffer.rs`; it depends only on
`size_of::<T>()`, which is the argument here. -/
def IndexType.for_type (elem_size : Nat) : Except Panic IndexType :=
  match elem_size with
  | 1 => .ok .byte
  | 2 => .ok .short
  | 4 => .ok .int
  | _ => .error .unsupportedIndexType

/-- The index-element-type assertions at the top of `Buffer::update`
(`buffer.rs`): for an index buffer, `index_type` must be present and equal to
`IndexType::for_type::<T>()`; `some _` is the panic they raise. -/
def Buffer.updateTypePanic (buf : Buffer) (elem_size : Nat) : Option Panic :=
  if buf.buffer_type = .indexBuffer then
    if buf.index_type.isNone then some .indexTypeMismatch
    else match IndexType.for_type elem_size with
      | .error e => some e
      | .ok it2 => if buf.index_type = some it2 then none else some .indexTypeMismatch
  else none

/-- `Buffer::update` from `buffer.rs`, with the payload `&[T]` abstracted to
its element byte size and element count (`size_of_val = elem_size * count`).
The index-type and capacity assertions run before any cache mutation or driver
call, so a panic (`some _` in the first component) leaves the cache unchanged
and the trace empty. -/
def Buffer.update (buf : Buffer) (cache : GlCache) (elem_size count : Nat) :
    Option Panic × GlCache × List DriverCall :=
  match buf.updateTypePanic elem_size with
  | some p => (some p, cache, [])
  | none =>
    let size := elem_size * count
    if size ≤ buf.size then
      let target := gl_buffer_target buf.buffer_type
      let c1 := cache.store_buffer_binding target
      let r2 := c1.bind_buffer target buf.gl_buf buf.index_type
      let r3 := r2.1.restore_buffer_binding target
      (none, r3.1, r2.2 ++ [.glBufferSubData target 0 size] ++ r3.2)
    else (some .bufferUpdateExceedsSize, cache, [])

/-- A 2-byte index buffer recording 2-byte (`Short`) index elements. -/
def shortIndexBuffer : Buffer :=
  { gl_buf := 1, buffer_type := .indexBuffer, size := 2, index_type := some .short }

/-- C7 (counterexample): "with a payload of byte size exactly equal to the
original size it succeeds" fails for an index buffer fed a payload whose
element width does not match the recorded index type: a 2-byte payload of
1-byte elements into a 2-byte `Short` index buffer panics on the
index-element-type assertion even though the sizes match. -/
theorem C7_counterexample_equal_size_type_mismatch :
    1 * 2 = shortIndexBuffer.size ∧
    (shortIndexBuffer.update GlCache.new 1 2).1 = some .indexTypeMismatch := by
  exact ⟨rfl, rfl⟩

/-- C7 (amended): `update` with a payload strictly larger than the original
byte size always panics, with the cache unchanged and zero driver calls (so
the buffer's driver contents are untouched; the recorded size is untouched by
construction since `update` takes `&self`).  With a payload of exactly the
original byte size it succeeds — provided the payload also passes the
index-element-type check (vertex buffers always do; index buffers need the
payload element width to match the recorded index type) — and issues the
`glBufferSubData` upload of exactly that many bytes. -/
theorem C7_update_capacity_invariant :
    (∀ (buf : Buffer) (cache : GlCache) (elem_size count : Nat),
      buf.size < elem_size * count →
      ((buf.update cache elem_size count).1.isSome ∧
       (buf.update cache elem_size count).2.1 = cache ∧
       (buf.update cache elem_size count).2.2 = [])) ∧
    (∀ (buf : Buffer) (cache : GlCache) (elem_size count : Nat),
      elem_size * count = buf.size →
      (buf.buffer_type = .vertexBuffer ∨
        ∃ it, buf.index_type = some it ∧ IndexType.for_type elem_size = .ok it) →
      ((buf.update cache elem_size count).1 = none ∧
       DriverCall.glBufferSubData (gl_buffer_target buf.buffer_type) 0
           (elem_size * count) ∈ (buf.update cache elem_size count).2.2)) := by
  constructor
  · intro buf cache elem_size count hgt
    have hnle : ¬(elem_size * count ≤ buf.size) := by omega
    cases htp : buf.updateTypePanic elem_size with
    | some p => simp [Buffer.update, htp]
    | none => simp [Buffer.update, htp, hnle]
  · intro buf cache elem_size count heq hty
    have hle : elem_size * count ≤ buf.size := le_of_eq heq
    have htp : buf.updateTypePanic elem_size = none := by
      unfold Buffer.updateTypePanic
      rcases hty with hv | ⟨it, hit, hfor⟩
      · simp [hv]
      · by_cases hb : buf.buffer_type = BufferType.indexBuffer <;>
          simp [hb, hit, hfor]
    simp [Buffer.update, htp, hle]

/-- A 4-byte vertex buffer for the C7 witness. -/
def vertBuffer4 : Buffer :=
  { gl_buf := 2, buffer_type := .vertexBuffer, size := 4, index_type := none }

/-- C7 witness: a 5-byte payload into the 4-byte buffer panics without driver
calls; a 4-byte payload succeeds and uploads 4 bytes. -/
theorem C7_update_capacity_invariant_witness :
    ((vertBuffer4.update GlCache.new 1 5).1.isSome ∧
     (vertBuffer4.update GlCache.new 1 5).2.1 = GlCache.new ∧
     (vertBuffer4.update GlCache.new 1 5).2.2 = []) ∧
    ((vertBuffer4.update GlCache.new 1 4).1 = none ∧
     DriverCall.glBufferSubData (gl_buffer_target vertBuffer4.buffer_type) 0
        (1 * 4) ∈ (vertBuffer4.update GlCache.new 1 4).2.2) :=
  ⟨C7_update_capacity_invariant.1 vertBuffer4 GlCache.new 1 5 (by decide),
   C7_update_capacity_invariant.2 vertBuffer4 GlCache.new 1 4 (by decide)
     (Or.inl rfl)⟩

/-! ## C3: `apply_uniforms_from_bytes` (`mod.rs`) -/

/-- One uniform upload issued by `apply_uniforms_from_bytes`: the driver call
family (encoded by the uniform type), the resolved location, the `array_count`
passed to the driver, and the 4-byte-word offset into the caller's blob at
which the call starts reading. -/
structure UniformUpload where
  uniform_type : UniformType
  gl_loc : Int
  array_count : Int
  word_offset : Nat
deriving DecidableEq, Repr

/-- The number of bytes a `glUniform*v`/`glUniformMatrix4fv` upload reads from
the blob, starting at its word offset: one element of `uniform_type.size`
bytes per array element. -/
def UniformUpload.bytesRead (u : UniformUpload) : Int :=
  4 * u.word_offset + u.uniform_type.size * u.array_count

/-- The loop body of `apply_uniforms_from_bytes` (`mod.rs:327-372`) over the
shader's uniform schema: `offset` is the running 4-byte-word offset and `size`
the byte length of the caller's blob.  The `assert!` compares the word offset
`offset` against `size - uniform.uniform_type.size() / 4` (a byte count minus
a word count, on `usize`, modelled on `Int`); on failure it panics, otherwise
a slot with a resolved location issues its upload and the offset advances by
`size()/4 * array_count as usize` words (`array_count` is an `i32` built from
a `usize` count, so the cast is `.toNat` here). -/
def applyUniformsLoop (size : Nat) :
    List ShaderUniform → Nat → Option Panic × List UniformUpload
  | [], _ => (none, [])
  | uniform :: rest, offset =>
    if ¬((offset : Int) ≤ (size : Int) - (uniform.uniform_type.size : Int) / 4) then
      (some .uniformsLayoutMismatch, [])
    else
      let uploads := match uniform.gl_loc with
        | some l => [{ uniform_type := uniform.uniform_type, gl_loc := l,
                       array_count := uniform.array_count,
                       word_offset := offset : UniformUpload }]
        | none => []
      let r := applyUniformsLoop size rest
        (offset + uniform.uniform_type.size / 4 * uniform.array_count.toNat)
      (r.1, uploads ++ r.2)

/-- `GraphicsContext::apply_uniforms_from_bytes` from `mod.rs`, for an active
shader described by its uniform schema and a blob of `size` bytes.  Returns
the panic, if any, and the uploads issued before it. -/
def apply_uniforms_from_bytes (uniforms : List ShaderUniform) (size : Nat) :
    Option Panic × List UniformUpload :=
  applyUniformsLoop size uniforms 0

/-- The total byte size the uniform schema demands of the caller's blob: the
sum over all slots of element size times array count. -/
def uniformsDemand (uniforms : List ShaderUniform) : Nat :=
  (uniforms.map (fun u => u.uniform_type.size * u.array_count.toNat)).sum

/-- C3 (code bug): for the one-slot schema `[Mat4, array_count 1, location
resolved]` the schema demands 64 bytes, yet a 20-byte blob sails through the
precondition check (`assert!(offset <= size - size()/4)` compares the word
offset 0 with `20 - 16 = 4`, mixing bytes with words and ignoring
`array_count`) and the matrix upload is issued, reading 64 bytes — past the
20-byte blob — instead of panicking as the claim requires. -/
theorem C3_uniforms_check_misses_short_blob :
    20 < uniformsDemand [{ gl_loc := some 0, uniform_type := .mat4,
                           array_count := 1 }] ∧
    apply_uniforms_from_bytes
        [{ gl_loc := some 0, uniform_type := .mat4, array_count := 1 }] 20
      = (none, [{ uniform_type := .mat4, gl_loc := 0, array_count := 1,
                  word_offset := 0 }]) ∧
    (20 : Int) <
      UniformUpload.bytesRead
        { uniform_type := .mat4, gl_loc := 0, array_count := 1,
          word_offset := 0 } := by
  refine ⟨by decide, rfl, by decide⟩

/-! ## The pipeline vertex-layout compiler (`Pipeline::with_params`) -/

/-- `VertexStep` from `pipeline.rs`. -/
inductive VertexStep where
  | perVertex | perInstance
deriving DecidableEq, Repr

/-- `BufferLayout` from `pipeline.rs`. -/
structure BufferLayout where
  stride : Int
  step_func : VertexStep
  step_rate : Int
deriving DecidableEq, Repr

/-- `Default for BufferLayout` from `pipeline.rs`. -/
def BufferLayout.default : BufferLayout :=
  { stride := 0, step_func := .perVertex, step_rate := 1 }

/-- `VertexAttribute` from `pipeline.rs`. -/
structure VertexAttribute where
  name : String
  format : VertexFormat
  buffer_index : Nat
deriving DecidableEq, Repr

/-- `BufferCacheData` from `Pipeline::with_params` (`pipeline.rs`): the
per-source-buffer running stride and byte offset. -/
structure BufferCacheData where
  stride : Int := 0
  offset : Int := 0
deriving DecidableEq, Repr

/-- The `attr_loc as GLuint` cast in `with_params`: an `i32` reinterpreted as
a `u32`, i.e. the value mod `2^32`. -/
def u32ofI32 (x : Int) : Nat := (x.emod 4294967296).toNat

/-- The first loop of `with_params`: accumulate each buffer's stride (declared
stride authoritative when nonzero, else the sum of assigned attribute byte
lengths) with the WebGL-1 `assert!(cache.stride <= 255)`; an out-of-range
`buffer_index` is the `unwrap_or_else(|| panic!())` panic.  One step. -/
def strideStep (buffer_layout : List BufferLayout)
    (buffer_cache : List BufferCacheData) (a : VertexAttribute) :
    Except Panic (List BufferCacheData) :=
  match buffer_layout.get? a.buffer_index, buffer_cache.get? a.buffer_index with
  | some layout, some cache =>
    let stride := if layout.stride = 0 then cache.stride + a.format.byte_len
                  else layout.stride
    if stride ≤ 255 then
      .ok (buffer_cache.set a.buffer_index { cache with stride := stride })
    else .error .strideTooLarge
  | _, _ => .error .indexOutOfBounds

/-- The first loop of `with_params` over the whole attribute list. -/
def strideLoop (buffer_layout : List BufferLayout) :
    List VertexAttribute → List BufferCacheData → Except Panic (List BufferCacheData)
  | [], buffer_cache => .ok buffer_cache
  | a :: rest, buffer_cache =>
    match strideStep buffer_layout buffer_cache a with
    | .error e => .error e
    | .ok buffer_cache => strideLoop buffer_layout rest buffer_cache

/-- `attributes_len` from `with_params`: a Mat4 attribute occupies 4 slots,
every other format 1. -/
def attributes_len (attributes : List VertexAttribute) : Nat :=
  (attributes.map (fun a => match a.format with | .mat4 => 4 | _ => 1)).sum

/-- The Mat4 expansion at the head of the per-attribute loop of `with_params`:
a Mat4 becomes 4 consecutive Float4 slots, anything else stays itself. -/
def attrExpanded (format : VertexFormat) : VertexFormat × Nat :=
  if format = .mat4 then (.float4, 4) else (format, 1)

/-- The `for i in 0..attributes_count` loop of `with_params` for one
attribute: writes an entry per expansion index when the location resolved
(with the `assert!(attr_loc < vertex_layout.len())` bound check) and advances
the running offset by the expanded format's byte length each iteration whether
or not the location resolved. -/
def attrWriteLoop (format : VertexFormat) (stride : Int) (buffer_index : Nat)
    (divisor : Int) (attr_loc : Option Int) :
    List Nat → Int → List (Option VertexAttributeInternal) →
    Except Panic (Int × List (Option VertexAttributeInternal))
  | [], offset, vertex_layout => .ok (offset, vertex_layout)
  | i :: rest, offset, vertex_layout =>
    match attr_loc with
    | some l =>
      let gl_loc := (u32ofI32 l + i) % 4294967296
      let attr : VertexAttributeInternal :=
        { attr_loc := gl_loc, size := format.size, type_ := format.type_,
          offset := offset, stride := stride, buffer_index := buffer_index,
          divisor := divisor }
      if gl_loc < vertex_layout.length then
        attrWriteLoop format stride buffer_index divisor attr_loc rest
          (offset + format.byte_len) (vertex_layout.set gl_loc (some attr))
      else .error .attrLocOutOfRange
    | none =>
      attrWriteLoop format stride buffer_index divisor attr_loc rest
        (offset + format.byte_len) vertex_layout

/-- The second loop of `with_params`, one attribute: fetch the buffer cache
slot and layout (panic when out of range), resolve the name through the
shader's program (`glGetAttribLocation`, the oracle `loc_of`; `-1` means
absent), compute the divisor, expand Mat4, run the write loop, and store the
advanced offset back. -/
def applyAttr (loc_of : String → Int) (buffer_layout : List BufferLayout)
    (a : VertexAttribute) (buffer_cache : List BufferCacheData)
    (vertex_layout : List (Option VertexAttributeInternal)) :
    Except Panic (List BufferCacheData × List (Option VertexAttributeInternal)) :=
  match buffer_cache.get? a.buffer_index, buffer_layout.get? a.buffer_index with
  | some buffer_data, some layout =>
    let attr_loc0 := loc_of a.name
    let attr_loc : Option Int := if attr_loc0 = -1 then none else some attr_loc0
    let divisor : Int := if layout.step_func = .perVertex then 0 else layout.step_rate
    let fc := attrExpanded a.format
    match attrWriteLoop fc.1 buffer_data.stride a.buffer_index divisor attr_loc
        (List.range fc.2) buffer_data.offset vertex_layout with
    | .error e => .error e
    | .ok (offset, vertex_layout) =>
      .ok (buffer_cache.set a.buffer_index { buffer_data with offset := offset },
           vertex_layout)
  | _, _ => .error .indexOutOfBounds

/-- The second loop of `with_params` over the whole attribute list. -/
def layoutLoop (loc_of : String → Int) (buffer_layout : List BufferLayout) :
    List VertexAttribute → List BufferCacheData →
    List (Option VertexAttributeInternal) →
    Except Panic (List BufferCacheData × List (Option VertexAttributeInternal))
  | [], buffer_cache, vertex_layout => .ok (buffer_cache, vertex_layout)
  | a :: rest, buffer_cache, vertex_layout =>
    match applyAttr loc_of buffer_layout a buffer_cache vertex_layout with
    | .error e => .error e
    | .ok (buffer_cache, vertex_layout) =>
      layoutLoop loc_of buffer_layout rest buffer_cache vertex_layout

/-- The vertex-layout compilation of `Pipeline::with_params` (`pipeline.rs`):
both loops, starting from a zeroed buffer cache and a `None`-filled table of
`attributes_len` slots.  `loc_of` is the `glGetAttribLocation` oracle of the
shader's program.  The result is the compiled `vertex_layout` table. -/
def with_params (loc_of : String → Int) (buffer_layout : List BufferLayout)
    (attributes : List VertexAttribute) :
    Except Panic (List (Option VertexAttributeInternal)) :=
  match strideLoop buffer_layout attributes
      (List.replicate buffer_layout.length {}) with
  | .error e => .error e
  | .ok buffer_cache =>
    match layoutLoop loc_of buffer_layout attributes buffer_cache
        (List.replicate (attributes_len attributes) none) with
    | .error e => .error e
    | .ok (_, vertex_layout) => .ok vertex_layout

/-! ## C4: stride auto-computation -/

/-- C4: for one buffer layout with declared stride 0 and attributes
[Float3, Float2] both on that buffer, with both names resolving to the two
distinct driver locations the 2-slot table admits, the compiled table records
stride 20 for both entries, byte offset 0 for the Float3 attribute and byte
offset 12 for the Float2 attribute. -/
theorem C4_stride_auto_computation (loc_of : String → Int) (n0 n1 : String)
    (h : loc_of n0 = 0 ∧ loc_of n1 = 1 ∨ loc_of n0 = 1 ∧ loc_of n1 = 0) :
    with_params loc_of [BufferLayout.default]
      [⟨n0, .float3, 0⟩, ⟨n1, .float2, 0⟩]
      = .ok (if loc_of n0 = 0 then
          [some { attr_loc := 0, size := 3, type_ := 5126, offset := 0,
                  stride := 20, buffer_index := 0, divisor := 0 },
           some { attr_loc := 1, size := 2, type_ := 5126, offset := 12,
                  stride := 20, buffer_index := 0, divisor := 0 }]
        else
          [some { attr_loc := 0, size := 2, type_ := 5126, offset := 12,
                  stride := 20, buffer_index := 0, divisor := 0 },
           some { attr_loc := 1, size := 3, type_ := 5126, offset := 0,
                  stride := 20, buffer_index := 0, divisor := 0 }]) := by
  rcases h with ⟨h0, h1⟩ | ⟨h0, h1⟩ <;>
    simp [with_params, strideLoop, strideStep, layoutLoop, applyAttr,
      attrWriteLoop, attributes_len, attrExpanded, BufferLayout.default,
      u32ofI32, h0, h1, VertexFormat.byte_len, VertexFormat.size,
      VertexFormat.type_,
      show ((1:Int).emod 4294967296).toNat = 1 from by decide,
      show ((0:Int).emod 4294967296).toNat = 0 from by decide]

/-- C4 (counterexample): "assuming both attribute names resolve to driver
locations" is not enough: if the second name resolves to driver location 5,
the write fails the `assert!(attr_loc < vertex_layout.len())` bound (the
table has 2 slots) and creation panics instead of recording the claimed
entries. -/
theorem C4_counterexample_out_of_range_location :
    with_params (fun s => if s = "pos" then 0 else 5) [BufferLayout.default]
      [⟨"pos", .float3, 0⟩, ⟨"uv", .float2, 0⟩]
      = .error .attrLocOutOfRange := by rfl

/-- C4 witness: the theorem at the concrete resolution "pos" ↦ 0, "uv" ↦ 1. -/
theorem C4_stride_auto_computation_witness :
    with_params (fun s => if s = "pos" then 0 else 1) [BufferLayout.default]
      [⟨"pos", .float3, 0⟩, ⟨"uv", .float2, 0⟩]
      = .ok (if (fun s : String => if s = "pos" then 0 else 1) "pos" = 0 then
          [some { attr_loc := 0, size := 3, type_ := 5126, offset := 0,
                  stride := 20, buffer_index := 0, divisor := 0 },
           some { attr_loc := 1, size := 2, type_ := 5126, offset := 12,
                  stride := 20, buffer_index := 0, divisor := 0 }]
        else
          [some { attr_loc := 0, size := 2, type_ := 5126, offset := 12,
                  stride := 20, buffer_index := 0, divisor := 0 },
           some { attr_loc := 1, size := 3, type_ := 5126, offset := 0,
                  stride := 20, buffer_index := 0, divisor := 0 }]) :=
  C4_stride_auto_computation (fun s => if s = "pos" then 0 else 1) "pos" "uv"
    (Or.inl ⟨rfl, rfl⟩)

/-! ## C5: matrix attribute expansion -/

/-- C5 (counterexample): the claim quantifies over an arbitrary resolved
location L, but for L = 1 the four expanded slots would be 1,2,3,4 and slot 4
fails the `assert!(attr_loc < vertex_layout.len())` bound (the table for one
Mat4 attribute has exactly 4 slots), so compilation panics instead of
producing 4 entries at L..L+3. -/
theorem C5_counterexample_location_one_panics :
    with_params (fun _ => 1) [BufferLayout.default] [⟨"m", .mat4, 0⟩]
      = .error .attrLocOutOfRange := by rfl

/-- C5 (amended): for a single Mat4 attribute, alone in buffer 0, whose name
resolves to driver location 0 (the only location the 4-slot table admits),
compilation produces 4 entries at locations 0,1,2,3, each a Float4 (4
components, 16 bytes) with byte offsets 0, 16, 32, 48 and stride 64. -/
theorem C5_matrix_attribute_expansion (loc_of : String → Int) (n : String)
    (h : loc_of n = 0) :
    with_params loc_of [BufferLayout.default] [⟨n, .mat4, 0⟩]
      = .ok [some { attr_loc := 0, size := 4, type_ := 5126, offset := 0,
                    stride := 64, buffer_index := 0, divisor := 0 },
             some { attr_loc := 1, size := 4, type_ := 5126, offset := 16,
                    stride := 64, buffer_index := 0, divisor := 0 },
             some { attr_loc := 2, size := 4, type_ := 5126, offset := 32,
                    stride := 64, buffer_index := 0, divisor := 0 },
             some { attr_loc := 3, size := 4, type_ := 5126, offset := 48,
                    stride := 64, buffer_index := 0, divisor := 0 }] := by
  simp [with_params, strideLoop, strideStep, layoutLoop, applyAttr,
    attrWriteLoop, attributes_len, attrExpanded, BufferLayout.default,
    u32ofI32, h, VertexFormat.byte_len, VertexFormat.size, VertexFormat.type_,
    List.range_succ,
    show ((0:Int).emod 4294967296).toNat = 0 from by decide]

/-- C5 witness: the amended theorem at the constant resolution to 0. -/
theorem C5_matrix_attribute_expansion_witness :
    with_params (fun _ => 0) [BufferLayout.default] [⟨"m", .mat4, 0⟩]
      = .ok [some { attr_loc := 0, size := 4, type_ := 5126, offset := 0,
                    stride := 64, buffer_index := 0, divisor := 0 },
             some { attr_loc := 1, size := 4, type_ := 5126, offset := 16,
                    stride := 64, buffer_index := 0, divisor := 0 },
             some { attr_loc := 2, size := 4, type_ := 5126, offset := 32,
                    stride := 64, buffer_index := 0, divisor := 0 },
             some { attr_loc := 3, size := 4, type_ := 5126, offset := 48,
                    stride := 64, buffer_index := 0, divisor := 0 }] :=
  C5_matrix_attribute_expansion (fun _ => 0) "m" rfl

/-- With an unresolved location the write loop writes nothing and only
advances the offset, one expanded byte length per iteration. -/
theorem attrWriteLoop_none (fmt : VertexFormat) (st : Int) (bi : Nat) (dv : Int) :
    ∀ (is : List Nat) (off : Int) (t : List (Option VertexAttributeInternal)),
    attrWriteLoop fmt st bi dv none is off t
      = .ok (off + (is.length : Int) * fmt.byte_len, t) := by
  intro is
  induction is with
  | nil => intro off t; simp [attrWriteLoop]
  | cons i is ih =>
    intro off t
    rw [attrWriteLoop, ih]
    congr 2
    simp [List.length_cons]
    ring

/-- A successful write loop always advances the offset by one expanded byte
length per iteration, resolved or not. -/
theorem attrWriteLoop_offset (fmt : VertexFormat) (st : Int) (bi : Nat)
    (dv : Int) (loc : Option Int) :
    ∀ (is : List Nat) (off : Int) (t : List (Option VertexAttributeInternal))
      (off' : Int) (t' : List (Option VertexAttributeInternal)),
    attrWriteLoop fmt st bi dv loc is off t = .ok (off', t') →
    off' = off + (is.length : Int) * fmt.byte_len := by
  intro is
  induction is with
  | nil =>
    intro off t off' t' h
    simp [attrWriteLoop] at h
    simp [h.1]
  | cons i is ih =>
    intro off t off' t' h
    cases loc with
    | some l =>
      rw [attrWriteLoop] at h
      split at h
      · have := ih _ _ _ _ h
        rw [this]
        simp [List.length_cons]
        ring
      · exact absurd h (by simp)
    | none =>
      rw [attrWriteLoop] at h
      have := ih _ _ _ _ h
      rw [this]
      simp [List.length_cons]
      ring

/-- A successful write loop preserves the table length. -/
theorem attrWriteLoop_length (fmt : VertexFormat) (st : Int) (bi : Nat)
    (dv : Int) (loc : Option Int) :
    ∀ (is : List Nat) (off : Int) (t : List (Option VertexAttributeInternal))
      (off' : Int) (t' : List (Option VertexAttributeInternal)),
    attrWriteLoop fmt st bi dv loc is off t = .ok (off', t') →
    t'.length = t.length := by
  intro is
  induction is with
  | nil =>
    intro off t off' t' h
    simp [attrWriteLoop] at h
    simp [h.2]
  | cons i is ih =>
    intro off t off' t' h
    cases loc with
    | some l =>
      rw [attrWriteLoop] at h
      split at h
      · simpa using ih _ _ _ _ h
      · exact absurd h (by simp)
    | none =>
      rw [attrWriteLoop] at h
      exact ih _ _ _ _ h

/-- A successful write loop only touches the slots in the image of its index
list; every other table position is unchanged. -/
theorem attrWriteLoop_untouched (fmt : VertexFormat) (st : Int) (bi : Nat)
    (dv : Int) (l : Int) :
    ∀ (is : List Nat) (off : Int) (t : List (Option VertexAttributeInternal))
      (off' : Int) (t' : List (Option VertexAttributeInternal)),
    attrWriteLoop fmt st bi dv (some l) is off t = .ok (off', t') →
    ∀ j, j ∉ is.map (fun i => (u32ofI32 l + i) % 4294967296) →
    t'.get? j = t.get? j := by
  intro is
  induction is with
  | nil =>
    intro off t off' t' h j hj
    simp [attrWriteLoop] at h
    rw [h.2]
  | cons i is ih =>
    intro off t off' t' h j hj
    rw [attrWriteLoop] at h
    split at h
    · have hne : (u32ofI32 l + i) % 4294967296 ≠ j := by
        intro he
        exact hj (by simp only [List.map_cons, List.mem_cons]; exact Or.inl he.symm)
      have := ih _ _ _ _ h j (by
        intro hmem
        exact hj (by
          simp only [List.map_cons, List.mem_cons]
          exact Or.inr (by simpa using hmem)))
      rw [this]
      simpa using List.getElem?_set_ne hne
    · exact absurd h (by simp)

/-- Table-parametricity of the write loop: runs started from two tables of
equal length succeed together, produce the same offset, and agree at every
position where the starting tables agreed. -/
theorem attrWriteLoop_param (fmt : VertexFormat) (st : Int) (bi : Nat)
    (dv : Int) (loc : Option Int) :
    ∀ (is : List Nat) (off : Int)
      (t1 t2 : List (Option VertexAttributeInternal)),
    t1.length = t2.length →
    ∀ (off' : Int) (T1 : List (Option VertexAttributeInternal)),
    attrWriteLoop fmt st bi dv loc is off t1 = .ok (off', T1) →
    ∃ T2, attrWriteLoop fmt st bi dv loc is off t2 = .ok (off', T2) ∧
      T1.length = t1.length ∧ T2.length = t2.length ∧
      (∀ j, t1.get? j = t2.get? j → T1.get? j = T2.get? j) := by
  intro is
  induction is with
  | nil =>
    intro off t1 t2 hlen off' T1 h
    simp [attrWriteLoop] at h
    obtain ⟨rfl, rfl⟩ := h
    exact ⟨t2, by simp [attrWriteLoop], rfl, rfl, fun j hj => hj⟩
  | cons i is ih =>
    intro off t1 t2 hlen off' T1 h
    cases loc with
    | some l =>
      rw [attrWriteLoop] at h
      split at h
      · next hlt =>
        have hlt2 : (u32ofI32 l + i) % 4294967296 < t2.length := hlen ▸ hlt
        obtain ⟨T2, hT2, hL1, hL2, hagree⟩ := ih _
          (t1.set ((u32ofI32 l + i) % 4294967296) _)
          (t2.set ((u32ofI32 l + i) % 4294967296) _)
          (by simpa using hlen) _ _ h
        refine ⟨T2, ?_, by simpa using hL1, by simpa using hL2, ?_⟩
        · rw [attrWriteLoop]
          simp only [hlt2, if_pos]
          exact hT2
        · intro j hj
          apply hagree
          by_cases hje : j = (u32ofI32 l + i) % 4294967296
          · subst hje
            rw [List.get?_eq_getElem?, List.get?_eq_getElem?,
              List.getElem?_set_eq_of_lt _ hlt, List.getElem?_set_eq_of_lt _ hlt2]
          · rw [List.get?_eq_getElem?, List.get?_eq_getElem?,
              List.getElem?_set_ne (by omega), List.getElem?_set_ne (by omega)]
            simpa using hj
      · exact absurd h (by simp)
    | none =>
      rw [attrWriteLoop] at h
      obtain ⟨T2, hT2, hL1, hL2, hagree⟩ := ih _ t1 t2 hlen _ _ h
      exact ⟨T2, by rw [attrWriteLoop]; exact hT2, hL1, hL2, hagree⟩

/-- The table slots one attribute writes: none when its name does not
resolve, else the expanded locations. -/
def attrSlots (loc_of : String → Int) (a : VertexAttribute) : List Nat :=
  if loc_of a.name = -1 then []
  else (List.range (attrExpanded a.format).2).map
    (fun i => (u32ofI32 (loc_of a.name) + i) % 4294967296)

/-- `applyAttr` reads the resolution oracle only at the attribute's name. -/
theorem applyAttr_congr (f g : String → Int) (bl : List BufferLayout)
    (a : VertexAttribute) (bc : List BufferCacheData)
    (t : List (Option VertexAttributeInternal)) (h : f a.name = g a.name) :
    applyAttr f bl a bc t = applyAttr g bl a bc t := by
  unfold applyAttr
  rw [h]

/-- An attribute whose name does not resolve writes no table entry and only
advances its buffer's running offset by its expanded byte span. -/
theorem applyAttr_unresolved (f : String → Int) (bl : List BufferLayout)
    (a : VertexAttribute) (bc : List BufferCacheData)
    (t : List (Option VertexAttributeInternal)) (bd : BufferCacheData)
    (layout : BufferLayout) (hf : f a.name = -1)
    (hbc : bc.get? a.buffer_index = some bd)
    (hbl : bl.get? a.buffer_index = some layout) :
    applyAttr f bl a bc t = .ok (bc.set a.buffer_index
      { bd with offset := bd.offset +
          ((attrExpanded a.format).2 : Int) * (attrExpanded a.format).1.byte_len },
      t) := by
  unfold applyAttr
  simp [show bc[a.buffer_index]? = some bd from by simpa using hbc,
    show bl[a.buffer_index]? = some layout from by simpa using hbl,
    hf, attrWriteLoop_none, mul_comm]

/-- A successful `applyAttr` always advances the attribute's buffer offset by
the expanded byte span and preserves the table length, resolved or not. -/
theorem applyAttr_state (f : String → Int) (bl : List BufferLayout)
    (a : VertexAttribute) (bc : List BufferCacheData)
    (t : List (Option VertexAttributeInternal)) (bc' : List BufferCacheData)
    (t' : List (Option VertexAttributeInternal)) (bd : BufferCacheData)
    (hbc : bc.get? a.buffer_index = some bd)
    (h : applyAttr f bl a bc t = .ok (bc', t')) :
    bc' = bc.set a.buffer_index
      { bd with offset := bd.offset +
          ((attrExpanded a.format).2 : Int) * (attrExpanded a.format).1.byte_len } ∧
    t'.length = t.length := by
  unfold applyAttr at h
  cases hbl : bl.get? a.buffer_index with
  | none => rw [hbc, hbl] at h; exact absurd h (by simp)
  | some layout =>
    simp only [hbc, hbl] at h
    split at h
    · exact absurd h (by simp)
    · next off2 t2 hw =>
      rw [Except.ok.injEq, Prod.mk.injEq] at h
      obtain ⟨h1, h2⟩ := h
      have hoff := attrWriteLoop_offset _ _ _ _ _ _ _ _ _ _ hw
      have hlen := attrWriteLoop_length _ _ _ _ _ _ _ _ _ _ hw
      constructor
      · rw [← h1, hoff]
        simp [List.length_range, mul_comm]
      · rw [← h2]
        exact hlen

/-- A successful `applyAttr` leaves every table position outside the
attribute's slots unchanged. -/
theorem applyAttr_untouched (f : String → Int) (bl : List BufferLayout)
    (a : VertexAttribute) (bc : List BufferCacheData)
    (t : List (Option VertexAttributeInternal)) (bc' : List BufferCacheData)
    (t' : List (Option VertexAttributeInternal))
    (h : applyAttr f bl a bc t = .ok (bc', t')) :
    ∀ j, j ∉ attrSlots f a → t'.get? j = t.get? j := by
  intro j hj
  unfold applyAttr at h
  cases hbc : bc.get? a.buffer_index with
  | none => rw [hbc] at h; exact absurd h (by simp)
  | some bd =>
    cases hbl : bl.get? a.buffer_index with
    | none => rw [hbc, hbl] at h; exact absurd h (by simp)
    | some layout =>
      simp only [hbc, hbl] at h
      split at h
      · exact absurd h (by simp)
      · next off2 t2 hw =>
        rw [Except.ok.injEq, Prod.mk.injEq] at h
        obtain ⟨-, h2⟩ := h
        rw [← h2]
        by_cases hres : f a.name = -1
        · rw [show (if f a.name = -1 then none else some (f a.name) : Option Int)
              = none from by simp [hres], attrWriteLoop_none] at hw
          obtain ⟨-, rfl⟩ := by
            exact Prod.mk.injEq .. ▸ (Except.ok.injEq .. ▸ hw)
          rfl
        · rw [if_neg hres] at hw
          refine attrWriteLoop_untouched _ _ _ _ _ _ _ _ _ _ hw j ?_
          simpa [attrSlots, hres] using hj

/-- Table-parametricity of `applyAttr`. -/
theorem applyAttr_param (f : String → Int) (bl : List BufferLayout)
    (a : VertexAttribute) (bc : List BufferCacheData)
    (t1 t2 : List (Option VertexAttributeInternal))
    (hlen : t1.length = t2.length) (bc' : List BufferCacheData)
    (T1 : List (Option VertexAttributeInternal))
    (h : applyAttr f bl a bc t1 = .ok (bc', T1)) :
    ∃ T2, applyAttr f bl a bc t2 = .ok (bc', T2) ∧
      T1.length = t1.length ∧ T2.length = t2.length ∧
      (∀ j, t1.get? j = t2.get? j → T1.get? j = T2.get? j) := by
  unfold applyAttr at h ⊢
  cases hbc : bc.get? a.buffer_index with
  | none => rw [hbc] at h; exact absurd h (by simp)
  | some bd =>
    cases hbl : bl.get? a.buffer_index with
    | none => rw [hbc, hbl] at h; exact absurd h (by simp)
    | some layout =>
      simp only [hbc, hbl] at h ⊢
      split at h
      · exact absurd h (by simp)
      · next off2 tt1 hw =>
        rw [Except.ok.injEq, Prod.mk.injEq] at h
        obtain ⟨h1, h2⟩ := h
        obtain ⟨TT2, hw2, hL1, hL2, hag⟩ :=
          attrWriteLoop_param _ _ _ _ _ _ _ _ _ hlen _ _ hw
        rw [hw2]
        refine ⟨TT2, ?_, by rw [← h2]; exact hL1, hL2, ?_⟩
        · show Except.ok (bc.set a.buffer_index { bd with offset := off2 }, TT2)
            = Except.ok (bc', TT2)
          rw [h1]
        · intro j hj
          rw [← h2]
          exact hag j hj

/-- `layoutLoop` reads the resolution oracle only at the attributes' names. -/
theorem layoutLoop_congr (f g : String → Int) (bl : List BufferLayout) :
    ∀ (attrs : List VertexAttribute) (bc : List BufferCacheData)
      (t : List (Option VertexAttributeInternal)),
    (∀ a ∈ attrs, f a.name = g a.name) →
    layoutLoop f bl attrs bc t = layoutLoop g bl attrs bc t := by
  intro attrs
  induction attrs with
  | nil => intro bc t h; rfl
  | cons a rest ih =>
    intro bc t h
    rw [layoutLoop, layoutLoop, applyAttr_congr f g bl a bc t (h a (by simp))]
    rcases happ : applyAttr g bl a bc t with e | ⟨bc', t'⟩
    · rfl
    · exact ih bc' t' (fun b hb => h b (by simp [hb]))

/-- Splitting `layoutLoop` over an appended attribute list. -/
theorem layoutLoop_append (f : String → Int) (bl : List BufferLayout) :
    ∀ (xs ys : List VertexAttribute) (bc : List BufferCacheData)
      (t : List (Option VertexAttributeInternal)),
    layoutLoop f bl (xs ++ ys) bc t
      = match layoutLoop f bl xs bc t with
        | .error e => .error e
        | .ok (bc', t') => layoutLoop f bl ys bc' t' := by
  intro xs
  induction xs with
  | nil => intro ys bc t; simp [layoutLoop]
  | cons a xs ih =>
    intro ys bc t
    rw [List.cons_append, layoutLoop, layoutLoop]
    rcases happ : applyAttr f bl a bc t with e | ⟨bc', t'⟩
    · rfl
    · exact ih ys bc' t'

/-- Table-parametricity of `layoutLoop`: runs from two equal-length tables
succeed together with the same final buffer cache, and the result tables agree
wherever the starting tables agreed. -/
theorem layoutLoop_param (f : String → Int) (bl : List BufferLayout) :
    ∀ (attrs : List VertexAttribute) (bc : List BufferCacheData)
      (t1 t2 : List (Option VertexAttributeInternal)),
    t1.length = t2.length →
    ∀ (bc' : List BufferCacheData) (T1 : List (Option VertexAttributeInternal)),
    layoutLoop f bl attrs bc t1 = .ok (bc', T1) →
    ∃ T2, layoutLoop f bl attrs bc t2 = .ok (bc', T2) ∧
      T1.length = t1.length ∧ T2.length = t2.length ∧
      (∀ j, t1.get? j = t2.get? j → T1.get? j = T2.get? j) := by
  intro attrs
  induction attrs with
  | nil =>
    intro bc t1 t2 hlen bc' T1 h
    simp [layoutLoop] at h
    obtain ⟨rfl, rfl⟩ := h
    exact ⟨t2, by simp [layoutLoop], rfl, rfl, fun j hj => hj⟩
  | cons a rest ih =>
    intro bc t1 t2 hlen bc' T1 h
    rw [layoutLoop] at h
    rcases happ : applyAttr f bl a bc t1 with e | ⟨bc1, tt1⟩
    · rw [happ] at h; exact absurd h (by simp)
    · rw [happ] at h
      obtain ⟨tt2, happ2, hL1, hL2, hag⟩ :=
        applyAttr_param f bl a bc t1 t2 hlen bc1 tt1 happ
      obtain ⟨T2, hrest2, hLL1, hLL2, hagg⟩ :=
        ih bc1 tt1 tt2 (by rw [hL1, hL2, hlen]) bc' T1 h
      refine ⟨T2, ?_, by rw [hLL1, hL1], by rw [hLL2, hL2], ?_⟩
      · rw [layoutLoop, happ2]
        exact hrest2
      · intro j hj
        exact hagg j (hag j hj)

/-- A successful `applyAttr` certifies both arena lookups succeeded. -/
theorem applyAttr_ok_gets (f : String → Int) (bl : List BufferLayout)
    (a : VertexAttribute) (bc : List BufferCacheData)
    (t : List (Option VertexAttributeInternal))
    (r : List BufferCacheData × List (Option VertexAttributeInternal))
    (h : applyAttr f bl a bc t = .ok r) :
    ∃ bd layout, bc.get? a.buffer_index = some bd ∧
      bl.get? a.buffer_index = some layout := by
  unfold applyAttr at h
  cases hbc : bc.get? a.buffer_index with
  | none => rw [hbc] at h; exact absurd h (by simp)
  | some bd =>
    cases hbl : bl.get? a.buffer_index with
    | none => rw [hbc, hbl] at h; exact absurd h (by simp)
    | some layout => exact ⟨bd, layout, rfl, rfl⟩

/-- C6: dropping an attribute whose name fails to resolve does not fail
pipeline creation, writes no table entry for it, and still advances the
running byte offset of its source buffer by the attribute's byte length, so
every entry outside the dropped attribute's own slots — in particular every
later attribute of the same buffer — compiles exactly as it would had the
attribute resolved. -/
theorem C6_unresolved_attribute_dropped (loc_of : String → Int)
    (buffer_layout : List BufferLayout) (pre post : List VertexAttribute)
    (a : VertexAttribute) (T : List (Option VertexAttributeInternal))
    (hname : a.name ∉ (pre ++ post).map VertexAttribute.name)
    (hok : with_params loc_of buffer_layout (pre ++ a :: post) = .ok T) :
    ∃ T', with_params (fun s => if s = a.name then -1 else loc_of s)
        buffer_layout (pre ++ a :: post) = .ok T' ∧
      T'.length = T.length ∧
      (∀ j, j ∉ attrSlots loc_of a → T'.get? j = T.get? j) ∧
      (∀ (bc : List BufferCacheData)
        (t : List (Option VertexAttributeInternal)) (bd : BufferCacheData)
        (layout : BufferLayout),
        bc.get? a.buffer_index = some bd →
        buffer_layout.get? a.buffer_index = some layout →
        applyAttr (fun s => if s = a.name then -1 else loc_of s) buffer_layout
            a bc t
          = .ok (bc.set a.buffer_index
              { bd with offset := bd.offset +
                  ((attrExpanded a.format).2 : Int) *
                    (attrExpanded a.format).1.byte_len }, t)) := by
  set f' : String → Int := fun s => if s = a.name then -1 else loc_of s with hf'
  have hf'a : f' a.name = -1 := by simp [hf']
  have hfpre : ∀ b ∈ pre, f' b.name = loc_of b.name := by
    intro b hb
    have hne : b.name ≠ a.name := fun he =>
      hname (List.mem_map.mpr ⟨b, List.mem_append_left _ hb, he⟩)
    simp [hf', hne]
  have hfpost : ∀ b ∈ post, f' b.name = loc_of b.name := by
    intro b hb
    have hne : b.name ≠ a.name := fun he =>
      hname (List.mem_map.mpr ⟨b, List.mem_append_right _ hb, he⟩)
    simp [hf', hne]
  unfold with_params at hok
  split at hok
  · exact absurd hok (by simp)
  · next bc0 hstride =>
    split at hok
    · exact absurd hok (by simp)
    · next bcF TF hlay =>
      replace hok : TF = T := by simpa using hok
      subst hok
      rw [layoutLoop_append] at hlay
      rcases hpre : layoutLoop loc_of buffer_layout pre bc0
          (List.replicate (attributes_len (pre ++ a :: post)) none)
        with e | ⟨bc1, t1⟩
      · rw [hpre] at hlay; exact absurd hlay (by simp)
      · simp only [hpre] at hlay
        rw [layoutLoop] at hlay
        rcases ha : applyAttr loc_of buffer_layout a bc1 t1 with e | ⟨bc2, t2⟩
        · rw [ha] at hlay; exact absurd hlay (by simp)
        · simp only [ha] at hlay
          obtain ⟨bd, layout, hbd, hbl2⟩ := applyAttr_ok_gets _ _ _ _ _ _ ha
          obtain ⟨hbc2eq, ht2len⟩ := applyAttr_state _ _ _ _ _ _ _ _ hbd ha
          obtain ⟨T', hpost', hTlen, hT'len, hag⟩ :=
            layoutLoop_param loc_of buffer_layout post bc2 t2 t1 ht2len bcF TF hlay
          have hcons : layoutLoop f' buffer_layout (a :: post) bc1 t1
              = layoutLoop f' buffer_layout post bc2 t1 := by
            rw [layoutLoop, applyAttr_unresolved f' buffer_layout a bc1 t1 bd
              layout hf'a hbd hbl2, ← hbc2eq]
          refine ⟨T', ?_, ?_, ?_, ?_⟩
          · unfold with_params
            simp only [hstride]
            rw [layoutLoop_append,
              layoutLoop_congr f' loc_of buffer_layout pre bc0 _ hfpre]
            simp only [hpre]
            rw [hcons,
              layoutLoop_congr f' loc_of buffer_layout post bc2 t1 hfpost]
            simp only [hpost']
          · rw [hT'len, hTlen, ht2len]
          · intro j hj
            exact (hag j (applyAttr_untouched loc_of buffer_layout a bc1 t1
              bc2 t2 ha j hj)).symm
          · intro bc t bd2 layout2 hbc3 hbl3
            exact applyAttr_unresolved _ _ _ _ _ _ _ hf'a hbc3 hbl3

/-- C6 witness: the dropped-attribute theorem at the concrete two-attribute
pipeline of C4, dropping the first attribute. -/
theorem C6_unresolved_attribute_dropped_witness :
    ∃ T', with_params
        (fun s => if s = (⟨"a", .float3, 0⟩ : VertexAttribute).name then -1
                  else (fun s => if s = "a" then 0 else 1) s)
        [BufferLayout.default]
        ([] ++ (⟨"a", .float3, 0⟩ : VertexAttribute) :: [⟨"b", .float2, 0⟩])
        = .ok T' ∧
      T'.length =
        ([some { attr_loc := 0, size := 3, type_ := 5126, offset := 0,
                 stride := 20, buffer_index := 0, divisor := 0 },
          some { attr_loc := 1, size := 2, type_ := 5126, offset := 12,
                 stride := 20, buffer_index := 0, divisor := 0 }] :
          List (Option VertexAttributeInternal)).length ∧
      (∀ j, j ∉ attrSlots (fun s => if s = "a" then 0 else 1)
          ⟨"a", .float3, 0⟩ →
        T'.get? j =
          ([some { attr_loc := 0, size := 3, type_ := 5126, offset := 0,
                   stride := 20, buffer_index := 0, divisor := 0 },
            some { attr_loc := 1, size := 2, type_ := 5126, offset := 12,
                   stride := 20, buffer_index := 0, divisor := 0 }] :
            List (Option VertexAttributeInternal)).get? j) ∧
      (∀ (bc : List BufferCacheData)
        (t : List (Option VertexAttributeInternal)) (bd : BufferCacheData)
        (layout : BufferLayout),
        bc.get? (⟨"a", .float3, 0⟩ : VertexAttribute).buffer_index = some bd →
        [BufferLayout.default].get?
            (⟨"a", .float3, 0⟩ : VertexAttribute).buffer_index = some layout →
        applyAttr
            (fun s => if s = (⟨"a", .float3, 0⟩ : VertexAttribute).name then -1
                      else (fun s => if s = "a" then 0 else 1) s)
            [BufferLayout.default] ⟨"a", .float3, 0⟩ bc t
          = .ok (bc.set (⟨"a", .float3, 0⟩ : VertexAttribute).buffer_index
              { bd with offset := bd.offset +
                  ((attrExpanded (VertexFormat.float3)).2 : Int) *
                    (attrExpanded (VertexFormat.float3)).1.byte_len }, t)) :=
  C6_unresolved_attribute_dropped (fun s => if s = "a" then 0 else 1)
    [BufferLayout.default] [] [⟨"b", .float2, 0⟩] ⟨"a", .float3, 0⟩
    [some { attr_loc := 0, size := 3, type_ := 5126, offset := 0,
            stride := 20, buffer_index := 0, divisor := 0 },
     some { attr_loc := 1, size := 2, type_ := 5126, offset := 12,
            stride := 20, buffer_index := 0, divisor := 0 }]
    (by decide) (by rfl)
